import Mathlib

/-! Discord dice bot: the `/interactions` handler of `src/app.js`.

A shallow embedding of the request handler registered by `app.post('/interactions', ...)`
and of the three roll functions, followed by theorems about them.

* JavaScript numbers are IEEE 754 binary64 values. A double is modelled by the rational it
  denotes, `Math.random()` is a sample handed in by the `World`, and the product
  `Math.random() * faces` is the exact product rounded to the nearest double, ties to even
  (`roundF64`). `Math.floor` and `+ 1` are exact on the values that occur.
* The handler is a function from the environment variables, the `World` (the answers of
  the random source, the filesystem and the network) and the request body to a `Run`: the
  ordered trace of the effects it performs and whether it returned or threw.
-/

namespace DiceBot

/-! ## JSON values and `JSON.stringify` -/

mutual
/-- JSON values; objects keep their keys in insertion order, as JavaScript does. -/
inductive Json where
  | null : Json
  | bool (b : Bool) : Json
  | num (n : Int) : Json
  | str (s : String) : Json
  | arr (xs : JsonList) : Json
  | obj (kvs : JsonFields) : Json
/-- The elements of a JSON array. -/
inductive JsonList where
  | nil : JsonList
  | cons (x : Json) (xs : JsonList) : JsonList
/-- The key/value pairs of a JSON object. -/
inductive JsonFields where
  | nil : JsonFields
  | cons (k : String) (v : Json) (rest : JsonFields) : JsonFields
end

/-- Array literal `[x₁, ..., xₙ]`. -/
def JsonList.ofList : List Json → JsonList
  | [] => .nil
  | x :: xs => .cons x (JsonList.ofList xs)

/-- Object literal with the given key/value pairs, in order. -/
def JsonFields.ofList : List (String × Json) → JsonFields
  | [] => .nil
  | (k, v) :: rest => .cons k v (JsonFields.ofList rest)

/-- Array literal. -/
def Json.mkArr (xs : List Json) : Json := .arr (JsonList.ofList xs)

/-- Object literal. -/
def Json.mkObj (kvs : List (String × Json)) : Json := .obj (JsonFields.ofList kvs)

/-- Lower-case hexadecimal digit of `n < 16`. -/
def hexDigit (n : Nat) : Char :=
  if n < 10 then Char.ofNat (48 + n) else Char.ofNat (87 + n)

/-- The escape `JSON.stringify` writes for one character of a string (ECMAScript
`QuoteJSONString`): the quote, the backslash and the control characters are escaped,
every other character is copied. -/
def quoteChar (c : Char) : List Char :=
  if c.toNat = 34 then [Char.ofNat 92, Char.ofNat 34]
  else if c.toNat = 92 then [Char.ofNat 92, Char.ofNat 92]
  else if c.toNat = 8 then [Char.ofNat 92, 'b']
  else if c.toNat = 9 then [Char.ofNat 92, 't']
  else if c.toNat = 10 then [Char.ofNat 92, 'n']
  else if c.toNat = 12 then [Char.ofNat 92, 'f']
  else if c.toNat = 13 then [Char.ofNat 92, 'r']
  else if c.toNat < 32 then
    [Char.ofNat 92, 'u', '0', '0', hexDigit (c.toNat / 16), hexDigit (c.toNat % 16)]
  else [c]

/-- A string as a JSON string literal. -/
def quoteJSONString (s : String) : String :=
  "\"" ++ String.mk (s.data.flatMap quoteChar) ++ "\""

mutual
/-- The text `JSON.stringify(v)` produces (no indentation). -/
def Json.stringify : Json → String
  | .null => "null"
  | .bool b => if b then "true" else "false"
  | .num n => toString n
  | .str s => quoteJSONString s
  | .arr xs => "[" ++ JsonList.stringify xs ++ "]"
  | .obj kvs => "\x7b" ++ JsonFields.stringify kvs ++ "\x7d"
/-- The elements of an array, separated by commas. -/
def JsonList.stringify : JsonList → String
  | .nil => ""
  | .cons x .nil => Json.stringify x
  | .cons x xs => Json.stringify x ++ "," ++ JsonList.stringify xs
/-- The members of an object, separated by commas. -/
def JsonFields.stringify : JsonFields → String
  | .nil => ""
  | .cons k v .nil => quoteJSONString k ++ ":" ++ Json.stringify v
  | .cons k v rest => quoteJSONString k ++ ":" ++ Json.stringify v ++ "," ++ JsonFields.stringify rest
end

/-- The value stored under key `key`, if any. -/
def JsonFields.get? : JsonFields → String → Option Json
  | .nil, _ => none
  | .cons k v rest, key => if k = key then some v else JsonFields.get? rest key

/-- Property access `v.key` on a JSON value. -/
def Json.get? : Json → String → Option Json
  | .obj kvs, key => kvs.get? key
  | _, _ => none

/-! ## Constants of the `discord-interactions` package and of `app.js` -/

/-- `InteractionType.PING` of the `discord-interactions` package. -/
def InteractionType.PING : Nat := 1
/-- `InteractionType.APPLICATION_COMMAND` of the `discord-interactions` package. -/
def InteractionType.APPLICATION_COMMAND : Nat := 2
/-- `InteractionType.MESSAGE_COMPONENT` of the `discord-interactions` package. -/
def InteractionType.MESSAGE_COMPONENT : Nat := 3

/-- `InteractionResponseType.PONG` of the `discord-interactions` package. -/
def InteractionResponseType.PONG : Int := 1
/-- `InteractionResponseType.CHANNEL_MESSAGE_WITH_SOURCE`. -/
def InteractionResponseType.CHANNEL_MESSAGE_WITH_SOURCE : Int := 4
/-- `InteractionResponseType.DEFERRED_CHANNEL_MESSAGE_WITH_SOURCE`. -/
def InteractionResponseType.DEFERRED_CHANNEL_MESSAGE_WITH_SOURCE : Int := 5

/-- `InteractionResponseFlags.IS_COMPONENTS_V2`, that is `1 << 15`. -/
def InteractionResponseFlags.IS_COMPONENTS_V2 : Int := 32768

/-- `MessageComponentTypes.ACTION_ROW`. -/
def MessageComponentTypes.ACTION_ROW : Int := 1
/-- `MessageComponentTypes.BUTTON`. -/
def MessageComponentTypes.BUTTON : Int := 2
/-- `MessageComponentTypes.TEXT_DISPLAY`. -/
def MessageComponentTypes.TEXT_DISPLAY : Int := 10

/-- `ButtonStyleTypes.PRIMARY`. -/
def ButtonStyleTypes.PRIMARY : Int := 1

/-- Line 21 of `app.js`. -/
def DICE_BUTTON_ID : String := "dice_roll_button"
/-- Line 22 of `app.js`. -/
def D6_BUTTON_ID : String := "d6_roll_button"
/-- Line 23 of `app.js`. -/
def D4_BUTTON_ID : String := "d4_roll_button"

/-- The literal that opens the caption and names the button emoji in `app.js`
(lines 93, 190 and their copies). In the file under `src/` it is stored as the four code
points U+00F0 U+0178 U+017D U+00B2. -/
def diceEmoji : String := "ðŸŽ²"

/-! ## Binary64 arithmetic -/

/-- The whole number nearest to `y`, the even one of the two when `y` lies halfway. -/
def roundHalfEven (y : ℚ) : ℤ :=
  if y - ⌊y⌋ < 1 / 2 then ⌊y⌋
  else if 1 / 2 < y - ⌊y⌋ then ⌊y⌋ + 1
  else if ⌊y⌋ % 2 = 0 then ⌊y⌋ else ⌊y⌋ + 1

/-- The exponent of the unit in the last place of the doubles around `x`: 52 binary places
below the leading bit of `x`, and `-1074` throughout the subnormal range and at zero. -/
def ulpExp (x : ℚ) : ℤ :=
  if x = 0 then -1074 else max (Int.log 2 |x|) (-1022) - 52

/-- The double nearest to `x`, ties to even, for `|x| < 2 ^ 1024` (there is no overflow in
what follows: the products rounded are below 32). -/
def roundF64 (x : ℚ) : ℚ := roundHalfEven (x / 2 ^ ulpExp x) * 2 ^ ulpExp x

/-- The rational `x` is a finite double. -/
def isF64 (x : ℚ) : Prop := roundF64 x = x ∧ |x| < 2 ^ 1024

instance : DecidablePred isF64 := fun x => by unfold isF64; infer_instance

/-! ## The roll functions (lines 25-35) -/

/-- `Math.floor(Math.random() * 20) + 1`, with `r` the value of `Math.random()`: the product
of the doubles `r` and `20` is rounded to a double, of which the floor is taken. -/
def rollD21 (r : ℚ) : ℤ := ⌊roundF64 (r * 20)⌋ + 1

/-- `Math.floor(Math.random() * 6) + 1`. -/
def rollD6 (r : ℚ) : ℤ := ⌊roundF64 (r * 6)⌋ + 1

/-- `Math.floor(Math.random() * 4) + 1`. -/
def rollD4 (r : ℚ) : ℤ := ⌊roundF64 (r * 4)⌋ + 1

/-! ## Requests, environment, world and effects -/

/-- The `data` field of a request body: `data.name` of a slash command and
`data.custom_id` of a component press (`none` is JavaScript's `undefined`). -/
structure InteractionData where
  name : Option String
  custom_id : Option String

/-- The parsed request body `req.body`, as far as the handler reads it. -/
structure RequestBody where
  id : Option String
  type : Nat
  data : Option InteractionData
  token : Option String

/-- The environment variables read while a request is handled. -/
structure Env where
  APP_ID : Option String
  DISCORD_TOKEN : Option String

/-- The bytes of an image. -/
abbrev Bytes := List UInt8

/-- What `fetch` resolves to: the status of the answer, and what `arrayBuffer()` gives
(the body, or the error it rejects with). -/
structure FetchResponse where
  status : Nat
  arrayBuffer : Except String Bytes

/-- The answers of everything outside the handler during one request. -/
structure World where
  /-- the value of `Math.random()`, a double of `[0, 1)` -/
  random : ℚ
  /-- the value of `getRandomEmoji()` (`utils.js`) -/
  emoji : String
  /-- the value of `fs.existsSync(path)` -/
  existsSync : String → Bool
  /-- the value of `fs.readFileSync(path)`, or the error it throws -/
  readFileSync : String → Except String Bytes
  /-- the answer to `fetch(url)`, or the error it rejects with -/
  fetchGet : String → Except String FetchResponse
  /-- the answer to `fetch(url, { method: 'POST', ... })`, or the error it rejects with -/
  fetchPost : String → Except String FetchResponse

/-- One observable step of the handler. -/
inductive Effect where
  /-- a call of `Math.random()` -/
  | mathRandom
  /-- a call of `getRandomEmoji()` -/
  | getRandomEmoji
  /-- an HTTP response: `res.send(body)` has status 200, `res.status(s).json(body)` status `s` -/
  | send (status : Nat) (body : Json)
  /-- `console.error(...args)` -/
  | consoleError (args : List String)
  /-- `fs.existsSync(path)` -/
  | existsSync (path : String)
  /-- `fs.readFileSync(path)` -/
  | readFileSync (path : String)
  /-- `fetch(url)`: the placeholder request -/
  | fetchGet (url : String)
  /-- `fetch(url, { method: 'POST', headers: { Authorization }, body: formData })`, where the
  form data hold the part `files[0]` (a blob with a file name) and the part `payload_json` -/
  | fetchPost (url : String) (authorization : String) (fileName : String) (file : Bytes)
      (payload_json : String)

/-- How the handler's promise settles. -/
inductive Outcome where
  | returned
  | threw (err : String)
  deriving DecidableEq

/-- One run of the handler. -/
structure Run where
  trace : List Effect
  outcome : Outcome

/-- The text of a template-literal hole for a value that is a string or `undefined`. -/
def interpolate : Option String → String
  | some s => s
  | none => "undefined"

/-! ## The handler (lines 41-330) -/

/-- The response of lines 62-74 (`test`). -/
def testResponse (emoji : String) : Json :=
  Json.mkObj [
    ("type", .num InteractionResponseType.CHANNEL_MESSAGE_WITH_SOURCE),
    ("data", Json.mkObj [
      ("flags", .num InteractionResponseFlags.IS_COMPONENTS_V2),
      ("components", Json.mkArr [
        Json.mkObj [
          ("type", .num MessageComponentTypes.TEXT_DISPLAY),
          ("content", .str ("hello world " ++ emoji))]])])]

/-- The response of lines 77-100, 103-126 and 129-152 (`d20`, `d6`, `d4`), which differ in
the caption and in the button's `custom_id`. -/
def dieResponse (caption customId : String) : Json :=
  Json.mkObj [
    ("type", .num InteractionResponseType.CHANNEL_MESSAGE_WITH_SOURCE),
    ("data", Json.mkObj [
      ("flags", .num InteractionResponseFlags.IS_COMPONENTS_V2),
      ("components", Json.mkArr [
        Json.mkObj [
          ("type", .num MessageComponentTypes.TEXT_DISPLAY),
          ("content", .str caption)],
        Json.mkObj [
          ("type", .num MessageComponentTypes.ACTION_ROW),
          ("components", Json.mkArr [
            Json.mkObj [
              ("type", .num MessageComponentTypes.BUTTON),
              ("custom_id", .str customId),
              ("label", .str "Lanzar"),
              ("emoji", Json.mkObj [("name", .str diceEmoji)]),
              ("style", .num ButtonStyleTypes.PRIMARY)]])]])])]

/-- The deferred acknowledgment of lines 165-167, 221-223 and 277-279. -/
def deferredResponse : Json :=
  Json.mkObj [("type", .num InteractionResponseType.DEFERRED_CHANNEL_MESSAGE_WITH_SOURCE)]

/-- What the three button branches (lines 160-214, 216-270, 272-326) differ in. -/
structure ButtonBranch where
  /-- the roll function called first -/
  roll : ℚ → ℤ
  /-- the directory part of `imagePath` -/
  assetDir : String
  /-- the label in the `text` parameter of `placeholderUrl` -/
  placeholderLabel : String
  /-- the label in the embed title -/
  titleLabel : String
  /-- the first argument of `console.error` in the `catch` block -/
  errorLabel : String

/-- Lines 160-214: the branch of `DICE_BUTTON_ID`. -/
def diceBranch : ButtonBranch :=
  { roll := rollD21, assetDir := "./assets/", placeholderLabel := "D21", titleLabel := "D20",
    errorLabel := "Error sending dice image:" }

/-- Lines 216-270: the branch of `D6_BUTTON_ID`. -/
def d6Branch : ButtonBranch :=
  { roll := rollD6, assetDir := "./assets/d6/", placeholderLabel := "D6", titleLabel := "D6",
    errorLabel := "Error sending d6 image:" }

/-- Lines 272-326: the branch of `D4_BUTTON_ID`. -/
def d4Branch : ButtonBranch :=
  { roll := rollD4, assetDir := "./assets/d4/", placeholderLabel := "D4", titleLabel := "D4",
    errorLabel := "Error sending d4 image:" }

/-- `imagePath` (lines 162, 218, 274). -/
def imagePath (c : ButtonBranch) (roll : ℤ) : String :=
  c.assetDir ++ toString roll ++ ".jpg"

/-- `fileName` (lines 174, 230, 286). -/
def fileName (roll : ℤ) : String := toString roll ++ ".jpg"

/-- `placeholderUrl` (lines 180, 236, 292). -/
def placeholderUrl (c : ButtonBranch) (roll : ℤ) : String :=
  "https://placehold.co/512x512/111827/38bdf8.png?text=" ++ c.placeholderLabel ++ "%0A" ++
    toString roll ++ "&font=source-sans-pro"

/-- The object handed to `JSON.stringify` (lines 189-198 and their copies);
`0x38bdf8` is 3718648. -/
def followUpPayload (c : ButtonBranch) (roll : ℤ) : Json :=
  Json.mkObj [
    ("content", .str (diceEmoji ++ " Resultado: **" ++ toString roll ++ "**")),
    ("embeds", Json.mkArr [
      Json.mkObj [
        ("title", .str (c.titleLabel ++ ": " ++ toString roll)),
        ("image", Json.mkObj [("url", .str ("attachment://" ++ fileName roll))]),
        ("color", .num 0x38bdf8)]])]

/-- `url` of the webhook request (lines 170 and 201 and their copies). -/
def webhookUrl (env : Env) (token : Option String) : String :=
  "https://discord.com/api/v10/" ++
    ("webhooks/" ++ interpolate env.APP_ID ++ "/" ++ interpolate token)

/-- The `catch` block: one `console.error(label, err)`. -/
def catchLog (c : ButtonBranch) (err : String) : List Effect :=
  [.consoleError [c.errorLabel, err]]

/-- The end of the `try` block (lines 186-208): build the form data and send them to the
webhook; the answer of the request is not looked at, a rejection goes to `catch`. -/
def sendFollowUp (c : ButtonBranch) (env : Env) (w : World) (token : Option String)
    (roll : ℤ) (imageBuffer : Bytes) : List Effect :=
  Effect.fetchPost (webhookUrl env token) ("Bot " ++ interpolate env.DISCORD_TOKEN)
      (fileName roll) imageBuffer (followUpPayload c roll).stringify ::
    match w.fetchPost (webhookUrl env token) with
    | .error err => catchLog c err
    | .ok _ => []

/-- The `try`/`catch` statement of a button branch (lines 171-211 and their copies). -/
def followUp (c : ButtonBranch) (env : Env) (w : World) (token : Option String)
    (roll : ℤ) : List Effect :=
  if w.existsSync (imagePath c roll) then
    .existsSync (imagePath c roll) :: .readFileSync (imagePath c roll) ::
      match w.readFileSync (imagePath c roll) with
      | .error err => catchLog c err
      | .ok imageBuffer => sendFollowUp c env w token roll imageBuffer
  else
    .existsSync (imagePath c roll) :: .fetchGet (placeholderUrl c roll) ::
      match w.fetchGet (placeholderUrl c roll) with
      | .error err => catchLog c err
      | .ok response =>
        match response.arrayBuffer with
        | .error err => catchLog c err
        | .ok imageBuffer => sendFollowUp c env w token roll imageBuffer

/-- A whole button branch: roll, send the deferred acknowledgment, run the `try`/`catch`
statement, `return`. -/
def buttonPress (c : ButtonBranch) (env : Env) (w : World) (body : RequestBody) : Run :=
  { trace := .mathRandom :: .send 200 deferredResponse ::
      followUp c env w body.token (c.roll w.random),
    outcome := .returned }

/-- Lines 328-329, reached by every request no branch above returned from. -/
def unknownInteraction (body : RequestBody) : Run :=
  { trace := [.consoleError ["unknown interaction type", toString body.type],
      .send 400 (Json.mkObj [("error", .str "unknown interaction type")])],
    outcome := .returned }

/-- The error of reading a property of `undefined` (`const { name } = data`,
`data.custom_id`). -/
def dataTypeError : Run :=
  { trace := [], outcome := .threw "TypeError" }

/-- The handler of `POST /interactions` (lines 41-330), after `verifyKeyMiddleware` has
let the request through. -/
def handler (env : Env) (w : World) (body : RequestBody) : Run :=
  if body.type = InteractionType.PING then
    { trace := [.send 200 (Json.mkObj [("type", .num InteractionResponseType.PONG)])],
      outcome := .returned }
  else if body.type = InteractionType.APPLICATION_COMMAND then
    match body.data with
    | none => dataTypeError
    | some data =>
      if data.name = some "test" then
        { trace := [.getRandomEmoji, .send 200 (testResponse w.emoji)], outcome := .returned }
      else if data.name = some "d20" then
        { trace := [.send 200 (dieResponse "Lanza un dado maldito de 20 caras." DICE_BUTTON_ID)],
          outcome := .returned }
      else if data.name = some "d6" then
        { trace := [.send 200 (dieResponse "Lanza un dado de 6 caras." D6_BUTTON_ID)],
          outcome := .returned }
      else if data.name = some "d4" then
        { trace := [.send 200 (dieResponse "Lanza un dado de 4 caras." D4_BUTTON_ID)],
          outcome := .returned }
      else
        { trace := [.consoleError ["unknown command: " ++ interpolate data.name],
            .send 400 (Json.mkObj [("error", .str "unknown command")])],
          outcome := .returned }
  else if body.type = InteractionType.MESSAGE_COMPONENT then
    match body.data with
    | none => dataTypeError
    | some data =>
      if data.custom_id = some DICE_BUTTON_ID then buttonPress diceBranch env w body
      else if data.custom_id = some D6_BUTTON_ID then buttonPress d6Branch env w body
      else if data.custom_id = some D4_BUTTON_ID then buttonPress d4Branch env w body
      else unknownInteraction body
  else unknownInteraction body

/-! ## Observations on a trace -/

/-- An HTTP response. -/
def Effect.isSend : Effect → Bool
  | .send _ _ => true
  | _ => false

/-- Asset-resolution and follow-up work: the filesystem existence check, the file read,
the placeholder request and the webhook request. -/
def Effect.isAssetWork : Effect → Bool
  | .existsSync _ => true
  | .readFileSync _ => true
  | .fetchGet _ => true
  | .fetchPost _ _ _ _ _ => true
  | _ => false

/-- A webhook request. -/
def Effect.isWebhookPost : Effect → Bool
  | .fetchPost _ _ _ _ _ => true
  | _ => false

/-- The argument lists of the `console.error` calls, in order. -/
def logs : List Effect → List (List String)
  | [] => []
  | .consoleError args :: rest => args :: logs rest
  | _ :: rest => logs rest

/-- The URLs of the placeholder requests, in order. -/
def placeholderRequests : List Effect → List String
  | [] => []
  | .fetchGet url :: rest => url :: placeholderRequests rest
  | _ :: rest => placeholderRequests rest

/-- The paths handed to `fs.existsSync`, in order. -/
def checkedPaths : List Effect → List String
  | [] => []
  | .existsSync path :: rest => path :: checkedPaths rest
  | _ :: rest => checkedPaths rest

/-- The parts of the webhook requests, in order: file name and bytes of `files[0]`, and
the text of `payload_json`. -/
def followUps : List Effect → List (String × Bytes × String)
  | [] => []
  | .fetchPost _ _ name file payload :: rest => (name, file, payload) :: followUps rest
  | _ :: rest => followUps rest

/-- The button identifiers with the branch the handler runs for each (lines 160, 216, 272). -/
def buttonBranches : List (String × ButtonBranch) :=
  [(DICE_BUTTON_ID, diceBranch), (D6_BUTTON_ID, d6Branch), (D4_BUTTON_ID, d4Branch)]

mutual
/-- The `custom_id` of every button component inside a JSON value, in document order: an
object whose `type` is `MessageComponentTypes.BUTTON` contributes its `custom_id` (`none`
when it has no string `custom_id`). -/
def Json.buttonIds : Json → List (Option String)
  | .obj kvs =>
    (match kvs.get? "type" with
      | some (.num t) =>
        if t = MessageComponentTypes.BUTTON then
          [match kvs.get? "custom_id" with
            | some (.str customId) => some customId
            | _ => none]
        else []
      | _ => []) ++ JsonFields.buttonIds kvs
  | .arr xs => JsonList.buttonIds xs
  | _ => []
/-- The buttons inside the elements of an array. -/
def JsonList.buttonIds : JsonList → List (Option String)
  | .nil => []
  | .cons x xs => Json.buttonIds x ++ JsonList.buttonIds xs
/-- The buttons inside the values of an object. -/
def JsonFields.buttonIds : JsonFields → List (Option String)
  | .nil => []
  | .cons _ v rest => Json.buttonIds v ++ JsonFields.buttonIds rest
end

mutual
/-- The `content` of every text-display component inside a JSON value, in document
order. -/
def Json.textDisplays : Json → List String
  | .obj kvs =>
    (match kvs.get? "type" with
      | some (.num t) =>
        if t = MessageComponentTypes.TEXT_DISPLAY then
          (match kvs.get? "content" with
            | some (.str content) => [content]
            | _ => [])
        else []
      | _ => []) ++ JsonFields.textDisplays kvs
  | .arr xs => JsonList.textDisplays xs
  | _ => []
/-- The text displays inside the elements of an array. -/
def JsonList.textDisplays : JsonList → List String
  | .nil => []
  | .cons x xs => Json.textDisplays x ++ JsonList.textDisplays xs
/-- The text displays inside the values of an object. -/
def JsonFields.textDisplays : JsonFields → List String
  | .nil => []
  | .cons _ v rest => Json.textDisplays v ++ JsonFields.textDisplays rest
end

/-- The string `title` of each element of an array that has one. -/
def JsonList.titles : JsonList → List String
  | .nil => []
  | .cons x xs =>
    (match x.get? "title" with
      | some (.str t) => [t]
      | _ => []) ++ JsonList.titles xs

/-- The titles of the embeds of a follow-up payload. -/
def embedTitles (payload : Json) : List String :=
  match payload.get? "embeds" with
  | some (.arr xs) => xs.titles
  | _ => []

/-! ## Sample inputs -/

/-- An environment with both variables set. -/
def sampleEnv : Env := { APP_ID := some "1234", DISCORD_TOKEN := some "secret" }

/-- A world in which `Math.random()` is `r`, every local asset exists and holds the bytes
`[255, 216, 255]`, and every request is answered with status 200. -/
def worldWithAssets (r : ℚ) : World :=
  { random := r, emoji := ":)", existsSync := fun _ => true,
    readFileSync := fun _ => .ok [255, 216, 255],
    fetchGet := fun _ => .ok { status := 200, arrayBuffer := .ok [137, 80] },
    fetchPost := fun _ => .ok { status := 200, arrayBuffer := .ok [] } }

/-- A world in which `Math.random()` is `r`, no local asset exists, and every request is
answered with status 200. -/
def worldWithoutAssets (r : ℚ) : World :=
  { worldWithAssets r with existsSync := fun _ => false }

/-- A press of the button with identifier `customId`. -/
def pressOf (customId : String) : RequestBody :=
  { id := some "1", type := InteractionType.MESSAGE_COMPONENT,
    data := some { name := none, custom_id := some customId }, token := some "tok" }

/-- A slash command with name `name`. -/
def commandOf (name : String) : RequestBody :=
  { id := some "2", type := InteractionType.APPLICATION_COMMAND,
    data := some { name := some name, custom_id := none }, token := some "tok" }

/-- The double written `0.7`. -/
def double07 : ℚ := 3152519739159347 / 4503599627370496

/-- The double written `0.3`. -/
def double03 : ℚ := 5404319552844595 / 18014398509481984

/-- The largest double below 1, `1 - 2 ^ (-53)`. -/
def doubleBelowOne : ℚ := 9007199254740991 / 9007199254740992

/-- The world of `worldWithAssets r`, except that the webhook answers every request
with status 500. -/
def worldWebhook500 (r : ℚ) : World :=
  { worldWithAssets r with fetchPost := fun _ => .ok { status := 500, arrayBuffer := .ok [] } }

/-- A world in which `Math.random()` is `r`, no local asset exists and every request fails
with a network error. -/
def worldOffline (r : ℚ) : World :=
  { worldWithAssets r with
    existsSync := fun _ => false,
    fetchGet := fun _ => .error "ECONNREFUSED",
    fetchPost := fun _ => .error "ECONNREFUSED" }

/-! ## Lemmas -/

theorem roundHalfEven_intCast (N : ℤ) : roundHalfEven (N : ℚ) = N := by
  simp [roundHalfEven]

theorem floor_le_roundHalfEven (y : ℚ) : ⌊y⌋ ≤ roundHalfEven y := by
  unfold roundHalfEven
  split_ifs <;> omega

theorem roundHalfEven_le_floor_succ (y : ℚ) : roundHalfEven y ≤ ⌊y⌋ + 1 := by
  unfold roundHalfEven
  split_ifs <;> omega

theorem le_roundHalfEven (N : ℤ) (y : ℚ) (h : (N : ℚ) ≤ y) : N ≤ roundHalfEven y :=
  le_trans (Int.le_floor.mpr h) (floor_le_roundHalfEven y)

theorem roundHalfEven_le (N : ℤ) (y : ℚ) (h : y ≤ (N : ℚ)) : roundHalfEven y ≤ N := by
  rcases eq_or_lt_of_le h with h | h
  · rw [h, roundHalfEven_intCast]
  · have : ⌊y⌋ < N := Int.floor_lt.mpr h
    have := roundHalfEven_le_floor_succ y
    omega

theorem roundHalfEven_lt (N : ℤ) (y : ℚ) (h : y < (N : ℚ) - 1 / 2) : roundHalfEven y < N := by
  have hfl : ⌊y⌋ < N := Int.floor_lt.mpr (by linarith)
  by_cases hlt : ⌊y⌋ + 1 < N
  · have := roundHalfEven_le_floor_succ y
    omega
  · have hN : N = ⌊y⌋ + 1 := by omega
    have hfrac : y - ⌊y⌋ < 1 / 2 := by
      rw [hN] at h
      push_cast at h
      linarith
    simp only [roundHalfEven, hfrac, if_true]
    exact hfl

theorem abs_roundHalfEven_sub_le (y : ℚ) : |(roundHalfEven y : ℚ) - y| ≤ 1 / 2 := by
  have h1 := Int.floor_le y
  have h2 := Int.lt_floor_add_one y
  unfold roundHalfEven
  rw [abs_le]
  split_ifs with ha hb hc
  · constructor <;> linarith
  · push_cast; constructor <;> linarith
  · have : y - ⌊y⌋ = 1 / 2 := le_antisymm (not_lt.mp hb) (not_lt.mp ha)
    constructor <;> linarith
  · have : y - ⌊y⌋ = 1 / 2 := le_antisymm (not_lt.mp hb) (not_lt.mp ha)
    push_cast; constructor <;> linarith

theorem roundHalfEven_add_half (f : ℤ) :
    roundHalfEven ((f : ℚ) + 1 / 2) = if f % 2 = 0 then f else f + 1 := by
  have hfl : ⌊(f : ℚ) + 1 / 2⌋ = f := by
    rw [Int.floor_eq_iff]; constructor <;> linarith
  simp only [roundHalfEven, hfl]
  norm_num


theorem two_zpow_pos (e : ℤ) : (0 : ℚ) < 2 ^ e := zpow_pos (by norm_num) e

/-- A multiple of `2 ^ t` is a multiple of every smaller power of two. -/
theorem zpow_grid (M : ℤ) (t e : ℤ) (h : e ≤ t) :
    ∃ N : ℤ, (M : ℚ) * 2 ^ t = (N : ℚ) * 2 ^ e := by
  refine ⟨M * 2 ^ (t - e).toNat, ?_⟩
  have h1 : ((t - e).toNat : ℤ) = t - e := Int.toNat_of_nonneg (by omega)
  have h2 : (2 : ℚ) ^ t = 2 ^ ((t - e).toNat : ℤ) * 2 ^ e := by
    rw [← zpow_add₀ (by norm_num : (2 : ℚ) ≠ 0), h1]; congr 1; ring
  rw [h2, zpow_natCast]
  push_cast
  ring

/-- The unit in the last place is at most `2 ^ (k - 52)` below `2 ^ (k + 1)`. -/
theorem ulpExp_le (x : ℚ) (k : ℤ) (hk : -1022 ≤ k) (hx : |x| < 2 ^ (k + 1)) :
    ulpExp x ≤ k - 52 := by
  unfold ulpExp
  split_ifs with h0
  · omega
  · have hpos : 0 < |x| := abs_pos.mpr h0
    have hlog : Int.log 2 |x| < k + 1 := by
      rw [← Int.lt_zpow_iff_log_lt (by norm_num) hpos]
      exact_mod_cast hx
    have : max (Int.log 2 |x|) (-1022) ≤ k := max_le (by omega) hk
    omega

/-- The unit in the last place inside the binade `[2 ^ k, 2 ^ (k + 1))`. -/
theorem ulpExp_eq (x : ℚ) (k : ℤ) (hk : -1022 ≤ k) (hlo : 2 ^ k ≤ |x|)
    (hx : |x| < 2 ^ (k + 1)) : ulpExp x = k - 52 := by
  have hpos : 0 < |x| := lt_of_lt_of_le (two_zpow_pos k) hlo
  have h0 : x ≠ 0 := abs_pos.mp hpos
  have hlog1 : Int.log 2 |x| < k + 1 := by
    rw [← Int.lt_zpow_iff_log_lt (by norm_num) hpos]
    exact_mod_cast hx
  have hlog2 : k ≤ Int.log 2 |x| := by
    rw [← Int.zpow_le_iff_le_log (by norm_num) hpos]
    exact_mod_cast hlo
  have : Int.log 2 |x| = k := by omega
  simp only [ulpExp, h0, if_false, this]
  rw [max_eq_left hk]

theorem ulpExp_ge (x : ℚ) : -1074 ≤ ulpExp x := by
  unfold ulpExp
  split_ifs
  · omega
  · have := le_max_right (Int.log 2 |x|) (-1022)
    omega

/-- Rounding does not cross a multiple of the unit in the last place. -/
theorem roundF64_le_of_grid (x : ℚ) (N : ℤ) (h : x ≤ (N : ℚ) * 2 ^ ulpExp x) :
    roundF64 x ≤ (N : ℚ) * 2 ^ ulpExp x := by
  have hu := two_zpow_pos (ulpExp x)
  unfold roundF64
  have : roundHalfEven (x / 2 ^ ulpExp x) ≤ N := roundHalfEven_le N _ ((div_le_iff₀ hu).mpr h)
  exact mul_le_mul_of_nonneg_right (by exact_mod_cast this) hu.le

theorem le_roundF64_of_grid (x : ℚ) (N : ℤ) (h : (N : ℚ) * 2 ^ ulpExp x ≤ x) :
    (N : ℚ) * 2 ^ ulpExp x ≤ roundF64 x := by
  have hu := two_zpow_pos (ulpExp x)
  unfold roundF64
  have : N ≤ roundHalfEven (x / 2 ^ ulpExp x) := le_roundHalfEven N _ ((le_div_iff₀ hu).mpr h)
  exact mul_le_mul_of_nonneg_right (by exact_mod_cast this) hu.le

theorem roundF64_lt_of_grid (x : ℚ) (N : ℤ)
    (h : x < (N : ℚ) * 2 ^ ulpExp x - 2 ^ ulpExp x / 2) :
    roundF64 x < (N : ℚ) * 2 ^ ulpExp x := by
  have hu := two_zpow_pos (ulpExp x)
  unfold roundF64
  have : roundHalfEven (x / 2 ^ ulpExp x) < N := by
    apply roundHalfEven_lt
    rw [div_lt_iff₀ hu]
    linarith
  exact mul_lt_mul_of_pos_right (by exact_mod_cast this) hu

/-- A multiple of the unit in the last place is its own rounding. -/
theorem roundF64_of_grid (x : ℚ) (N : ℤ) (h : x = (N : ℚ) * 2 ^ ulpExp x) :
    roundF64 x = x := by
  have hu := two_zpow_pos (ulpExp x)
  unfold roundF64
  have : x / 2 ^ ulpExp x = (N : ℚ) := by
    rw [div_eq_iff hu.ne']; exact h
  rw [this, roundHalfEven_intCast]
  exact h.symm

/-- The distance to the rounding is at most half a unit in the last place. -/
theorem abs_roundF64_sub_le (x : ℚ) : |roundF64 x - x| ≤ 2 ^ ulpExp x / 2 := by
  have hu := two_zpow_pos (ulpExp x)
  have h := abs_roundHalfEven_sub_le (x / 2 ^ ulpExp x)
  have : roundF64 x - x = ((roundHalfEven (x / 2 ^ ulpExp x) : ℚ) - x / 2 ^ ulpExp x) *
      2 ^ ulpExp x := by
    unfold roundF64
    field_simp
  rw [this, abs_mul, abs_of_pos hu]
  calc |(roundHalfEven (x / 2 ^ ulpExp x) : ℚ) - x / 2 ^ ulpExp x| * 2 ^ ulpExp x
      ≤ 1 / 2 * 2 ^ ulpExp x := mul_le_mul_of_nonneg_right h hu.le
    _ = 2 ^ ulpExp x / 2 := by ring

/-- Integers below `2 ^ 53` in size are not crossed by rounding: from below. -/
theorem roundF64_le_int (x : ℚ) (m : ℤ) (hx : |x| < 2 ^ 53) (h : x ≤ (m : ℚ)) :
    roundF64 x ≤ (m : ℚ) := by
  have he : ulpExp x ≤ 0 := by
    have := ulpExp_le x 52 (by norm_num) (by norm_num; exact hx)
    omega
  obtain ⟨N, hN⟩ := zpow_grid m 0 (ulpExp x) he
  rw [zpow_zero, mul_one] at hN
  rw [hN] at h ⊢
  exact roundF64_le_of_grid x N h

/-- Integers below `2 ^ 53` in size are not crossed by rounding: from above. -/
theorem le_roundF64_int (x : ℚ) (m : ℤ) (hx : |x| < 2 ^ 53) (h : (m : ℚ) ≤ x) :
    (m : ℚ) ≤ roundF64 x := by
  have he : ulpExp x ≤ 0 := by
    have := ulpExp_le x 52 (by norm_num) (by norm_num; exact hx)
    omega
  obtain ⟨N, hN⟩ := zpow_grid m 0 (ulpExp x) he
  rw [zpow_zero, mul_one] at hN
  rw [hN] at h ⊢
  exact le_roundF64_of_grid x N h

/-- A product that stays more than `2 ^ (k - 53)` below the integer `m` is rounded to less
than `m`. -/
theorem roundF64_lt_int (x : ℚ) (m : ℤ) (k : ℤ) (hk : -1022 ≤ k) (hk52 : k ≤ 52)
    (hx : |x| < 2 ^ (k + 1)) (h : x < (m : ℚ) - 2 ^ (k - 53)) : roundF64 x < (m : ℚ) := by
  have he := ulpExp_le x k hk hx
  obtain ⟨N, hN⟩ := zpow_grid m 0 (ulpExp x) (by omega)
  rw [zpow_zero, mul_one] at hN
  have hu : (2 : ℚ) ^ ulpExp x / 2 ≤ 2 ^ (k - 53) := by
    have h1 : (2 : ℚ) ^ ulpExp x ≤ 2 ^ (k - 52) := zpow_le_zpow_right₀ (by norm_num) he
    have h2 : (2 : ℚ) ^ (k - 52) = 2 ^ (k - 53) * 2 := by
      rw [← zpow_add_one₀ (by norm_num : (2 : ℚ) ≠ 0)]; congr 1; ring
    linarith
  rw [hN] at h ⊢
  exact roundF64_lt_of_grid x N (by linarith)

/-- Dyadic rationals with a numerator below `2 ^ 53` in size are doubles. -/
theorem roundF64_dyadic (M : ℤ) (t : ℤ) (hM : |M| < 2 ^ 53) (ht : -1074 ≤ t) :
    roundF64 ((M : ℚ) * 2 ^ t) = (M : ℚ) * 2 ^ t := by
  have hMq : |(M : ℚ)| < 2 ^ 53 := by exact_mod_cast hM
  have hx : |(M : ℚ) * 2 ^ t| < 2 ^ (52 + t + 1) := by
    rw [abs_mul, abs_of_pos (two_zpow_pos t)]
    have : (2 : ℚ) ^ (52 + t + 1) = 2 ^ (53 : ℕ) * 2 ^ t := by
      rw [← zpow_natCast, ← zpow_add₀ (by norm_num : (2 : ℚ) ≠ 0)]; congr 1; push_cast; ring
    rw [this]
    exact mul_lt_mul_of_pos_right hMq (two_zpow_pos t)
  have he := ulpExp_le _ (52 + t) (by omega) hx
  obtain ⟨N, hN⟩ := zpow_grid M t (ulpExp ((M : ℚ) * 2 ^ t)) (by omega)
  exact roundF64_of_grid _ N hN



/-- The largest double below 1 is `1 - 2 ^ (-53)`. -/
theorem isF64_lt_one_le (r : ℚ) (hr : isF64 r) (h0 : 0 ≤ r) (h1 : r < 1) :
    r ≤ 1 - 1 / 2 ^ 53 := by
  by_cases hhalf : r < 1 / 2
  · have : (1 : ℚ) / 2 ≤ 1 - 1 / 2 ^ 53 := by norm_num
    linarith
  · have habs : |r| = r := abs_of_nonneg h0
    have he : ulpExp r = -1 - 52 :=
      ulpExp_eq r (-1) (by norm_num) (by rw [habs]; norm_num; linarith [not_lt.mp hhalf])
        (by rw [habs]; norm_num; exact h1)
    have hfix := hr.1
    unfold roundF64 at hfix
    rw [he] at hfix
    set M := roundHalfEven (r / 2 ^ (-1 - 52 : ℤ)) with hM
    have hpow : (2 : ℚ) ^ (-1 - 52 : ℤ) = 1 / 2 ^ 53 := by
      rw [show (-1 - 52 : ℤ) = -((53 : ℕ) : ℤ) by norm_num, zpow_neg, zpow_natCast, one_div]
    rw [hpow] at hfix
    have hlt : (M : ℚ) < ((2 ^ 53 : ℤ) : ℚ) := by
      have : (M : ℚ) * (1 / 2 ^ 53) < 1 := by rw [hfix]; exact h1
      push_cast
      rw [mul_one_div, div_lt_one (by positivity)] at this
      exact this
    have hle : M ≤ 2 ^ 53 - 1 := by
      have : M < 2 ^ 53 := by exact_mod_cast hlt
      omega
    have hleq : (M : ℚ) ≤ 2 ^ 53 - 1 := by exact_mod_cast hle
    rw [← hfix]
    have : (M : ℚ) * (1 / 2 ^ 53) ≤ (2 ^ 53 - 1) * (1 / 2 ^ 53) :=
      mul_le_mul_of_nonneg_right hleq (by positivity)
    calc (M : ℚ) * (1 / 2 ^ 53) ≤ (2 ^ 53 - 1) * (1 / 2 ^ 53) := this
      _ = 1 - 1 / 2 ^ 53 := by ring

/-- The rounded product of a double sample of `[0, 1)` with `n` lies in `[0, n)`, for a
whole `n` with `2 ^ k < n ≤ 2 ^ (k + 1)`. -/
theorem rounded_product_bounds (r : ℚ) (n : ℤ) (k : ℤ) (hr : isF64 r) (h0 : 0 ≤ r)
    (h1 : r < 1) (hn : 0 < n) (hk : 0 ≤ k) (hk52 : k ≤ 52) (hnk : (n : ℚ) ≤ 2 ^ (k + 1))
    (hkn : (2 : ℚ) ^ k < n) :
    0 ≤ roundF64 (r * n) ∧ roundF64 (r * n) < n := by
  have hnq : (0 : ℚ) < n := by exact_mod_cast hn
  have hx0 : 0 ≤ r * n := mul_nonneg h0 hnq.le
  have hxn : r * n < n := by nlinarith
  have hk53 : (2 : ℚ) ^ (k + 1) ≤ 2 ^ (53 : ℤ) := zpow_le_zpow_right₀ (by norm_num) (by omega)
  have habs : |r * n| < 2 ^ (k + 1) := by rw [abs_of_nonneg hx0]; linarith
  have habs53 : |r * n| < 2 ^ 53 := by
    have : (2 : ℚ) ^ (53 : ℤ) = 2 ^ 53 := by norm_num
    linarith
  constructor
  · have := le_roundF64_int (r * n) 0 habs53 (by simpa using hx0)
    simpa using this
  · apply roundF64_lt_int (r * n) n k (by omega) hk52 habs
    have hr' := isF64_lt_one_le r hr h0 h1
    have hpow : (2 : ℚ) ^ (k - 53) = 2 ^ k * (1 / 2 ^ 53) := by
      rw [sub_eq_add_neg, zpow_add₀ (by norm_num : (2 : ℚ) ≠ 0),
        show (-53 : ℤ) = -((53 : ℕ) : ℤ) by norm_num, zpow_neg, zpow_natCast, one_div]
    rw [hpow]
    have h53 : (0 : ℚ) < 1 / 2 ^ 53 := by positivity
    have hprod : r * n ≤ (1 - 1 / 2 ^ 53) * n := mul_le_mul_of_nonneg_right hr' hnq.le
    have hgap : (2 : ℚ) ^ k * (1 / 2 ^ 53) < n * (1 / 2 ^ 53) :=
      mul_lt_mul_of_pos_right hkn h53
    linarith

theorem rollD21_bounds (r : ℚ) (hr : isF64 r) (h0 : 0 ≤ r) (h1 : r < 1) :
    1 ≤ rollD21 r ∧ rollD21 r ≤ 20 := by
  have h := rounded_product_bounds r 20 4 hr h0 h1 (by norm_num) (by norm_num) (by norm_num)
    (by norm_num) (by norm_num)
  push_cast at h
  have hlo : 0 ≤ ⌊roundF64 (r * 20)⌋ := Int.floor_nonneg.mpr h.1
  have hhi : ⌊roundF64 (r * 20)⌋ < 20 := Int.floor_lt.mpr (by exact_mod_cast h.2)
  unfold rollD21
  omega

theorem rollD6_bounds (r : ℚ) (hr : isF64 r) (h0 : 0 ≤ r) (h1 : r < 1) :
    1 ≤ rollD6 r ∧ rollD6 r ≤ 6 := by
  have h := rounded_product_bounds r 6 2 hr h0 h1 (by norm_num) (by norm_num) (by norm_num)
    (by norm_num) (by norm_num)
  push_cast at h
  have hlo : 0 ≤ ⌊roundF64 (r * 6)⌋ := Int.floor_nonneg.mpr h.1
  have hhi : ⌊roundF64 (r * 6)⌋ < 6 := Int.floor_lt.mpr (by exact_mod_cast h.2)
  unfold rollD6
  omega

theorem rollD4_bounds (r : ℚ) (hr : isF64 r) (h0 : 0 ≤ r) (h1 : r < 1) :
    1 ≤ rollD4 r ∧ rollD4 r ≤ 4 := by
  have h := rounded_product_bounds r 4 1 hr h0 h1 (by norm_num) (by norm_num) (by norm_num)
    (by norm_num) (by norm_num)
  push_cast at h
  have hlo : 0 ≤ ⌊roundF64 (r * 4)⌋ := Int.floor_nonneg.mpr h.1
  have hhi : ⌊roundF64 (r * 4)⌋ < 4 := Int.floor_lt.mpr (by exact_mod_cast h.2)
  unfold rollD4
  omega


theorem le_roundHalfEven_of_lt (N : ℤ) (y : ℚ) (h : (N : ℚ) - 1 / 2 < y) :
    N ≤ roundHalfEven y := by
  have hfl : N - 1 ≤ ⌊y⌋ := Int.le_floor.mpr (by push_cast; linarith)
  by_cases hge : N ≤ ⌊y⌋
  · exact le_trans hge (floor_le_roundHalfEven y)
  · have hN : ⌊y⌋ = N - 1 := by omega
    have hfrac : (1 : ℚ) / 2 < y - ⌊y⌋ := by
      rw [hN]; push_cast; linarith
    have hnot : ¬ (y - ⌊y⌋ < 1 / 2) := not_lt.mpr hfrac.le
    simp only [roundHalfEven, hnot, hfrac, if_true, if_false]
    omega

theorem roundHalfEven_eq_of_abs_lt (N : ℤ) (y : ℚ) (h : |y - N| < 1 / 2) :
    roundHalfEven y = N := by
  rw [abs_lt] at h
  have h1 : N ≤ roundHalfEven y := le_roundHalfEven_of_lt N y (by linarith)
  have h2 : roundHalfEven y < N + 1 := roundHalfEven_lt (N + 1) y (by push_cast; linarith)
  omega

/-- The rounding of a value whose binade and nearest multiple of the unit are known. -/
theorem roundF64_near (x : ℚ) (k N : ℤ) (hk : -1022 ≤ k) (hlo : 2 ^ k ≤ |x|)
    (hx : |x| < 2 ^ (k + 1)) (h : |x / 2 ^ (k - 52) - N| < 1 / 2) :
    roundF64 x = (N : ℚ) * 2 ^ (k - 52) := by
  unfold roundF64
  rw [ulpExp_eq x k hk hlo hx, roundHalfEven_eq_of_abs_lt N _ h]

/-- The rounding of a value halfway between two multiples of the unit. -/
theorem roundF64_tie (x : ℚ) (k f : ℤ) (hk : -1022 ≤ k) (hlo : 2 ^ k ≤ |x|)
    (hx : |x| < 2 ^ (k + 1)) (h : x / 2 ^ (k - 52) = (f : ℚ) + 1 / 2) :
    roundF64 x = ((if f % 2 = 0 then f else f + 1 : ℤ) : ℚ) * 2 ^ (k - 52) := by
  unfold roundF64
  rw [ulpExp_eq x k hk hlo hx, h, roundHalfEven_add_half]

theorem roundF64_div_two_pow (M : ℤ) (s : ℕ) (hM : |M| < 2 ^ 53) (hs : s ≤ 1074) :
    roundF64 ((M : ℚ) / 2 ^ s) = (M : ℚ) / 2 ^ s := by
  have h : (M : ℚ) / 2 ^ s = (M : ℚ) * 2 ^ (-(s : ℤ)) := by
    rw [zpow_neg, zpow_natCast, div_eq_mul_inv]
  rw [h]
  exact roundF64_dyadic M (-(s : ℤ)) hM (by omega)

/-- Multiplying a double by 4 is exact. -/
theorem roundF64_mul_four (r : ℚ) (hr : roundF64 r = r) : roundF64 (r * 4) = r * 4 := by
  have he : ulpExp (r * 4) ≤ ulpExp r + 2 := by
    by_cases h0 : r = 0
    · simp [h0]
    · have hpos : 0 < |r| := abs_pos.mpr h0
      have hlt := Int.lt_zpow_succ_log_self (by norm_num : 1 < 2) |r|
      have hlt' : |r| < 2 ^ (Int.log 2 |r| + 1) := by exact_mod_cast hlt
      have hmax := le_max_left (Int.log 2 |r|) (-1022)
      have hmax' := le_max_right (Int.log 2 |r|) (-1022)
      have hx : |r * 4| < 2 ^ (max (Int.log 2 |r|) (-1022) + 2 + 1) := by
        rw [abs_mul, abs_of_pos (by norm_num : (0 : ℚ) < 4)]
        have h1 : (2 : ℚ) ^ (Int.log 2 |r| + 1) ≤ 2 ^ (max (Int.log 2 |r|) (-1022) + 1) :=
          zpow_le_zpow_right₀ (by norm_num) (by omega)
        have h2 : (2 : ℚ) ^ (max (Int.log 2 |r|) (-1022) + 2 + 1) =
            2 ^ (max (Int.log 2 |r|) (-1022) + 1) * 4 := by
          rw [show max (Int.log 2 |r|) (-1022) + 2 + 1 =
            max (Int.log 2 |r|) (-1022) + 1 + 2 by ring, zpow_add₀ (by norm_num : (2 : ℚ) ≠ 0)]
          norm_num
        rw [h2]
        linarith
      have := ulpExp_le (r * 4) (max (Int.log 2 |r|) (-1022) + 2) (by omega) hx
      have hre : ulpExp r = max (Int.log 2 |r|) (-1022) - 52 := by simp [ulpExp, h0]
      omega
  have hfix : r * 4 = (roundHalfEven (r / 2 ^ ulpExp r) : ℚ) * 2 ^ (ulpExp r + 2) := by
    rw [zpow_add₀ (by norm_num : (2 : ℚ) ≠ 0)]
    unfold roundF64 at hr
    nth_rewrite 1 [← hr]
    norm_num
    ring
  obtain ⟨N, hN⟩ := zpow_grid (roundHalfEven (r / 2 ^ ulpExp r)) (ulpExp r + 2)
    (ulpExp (r * 4)) he
  exact roundF64_of_grid _ N (hfix.trans hN)

theorem floor_scaled_eq_iff (r : ℚ) (n k : ℤ) (hn : 0 < n) :
    ⌊r * (n : ℚ)⌋ + 1 = k ↔ ((k : ℚ) - 1) / n ≤ r ∧ r < (k : ℚ) / n := by
  have hnq : (0 : ℚ) < (n : ℚ) := by exact_mod_cast hn
  rw [← eq_sub_iff_add_eq, Int.floor_eq_iff, div_le_iff₀ hnq, lt_div_iff₀ hnq]
  push_cast
  constructor
  · rintro ⟨h1, h2⟩; exact ⟨h1, by linarith⟩
  · rintro ⟨h1, h2⟩; exact ⟨h1, by linarith⟩

theorem rollD4_eq_iff (r : ℚ) (k : ℤ) (hr : isF64 r) :
    rollD4 r = k ↔ ((k : ℚ) - 1) / 4 ≤ r ∧ r < (k : ℚ) / 4 := by
  unfold rollD4
  rw [roundF64_mul_four r hr.1]
  simpa using floor_scaled_eq_iff r 4 k (by norm_num)

/-- What rounding the product leaves of the interval of a face, for a die of at most 32
faces. -/
theorem rounded_roll_interval (r : ℚ) (n k : ℤ) (hn : 0 < n) (hn32 : n ≤ 32) (h0 : 0 ≤ r)
    (h1 : r < 1) :
    (⌊roundF64 (r * n)⌋ + 1 = k ↔
      (k : ℚ) - 1 ≤ roundF64 (r * n) ∧ roundF64 (r * n) < k) ∧
    (((k : ℚ) - 1) / n ≤ r → r < (k : ℚ) / n →
      ⌊roundF64 (r * n)⌋ + 1 = k ∨ ⌊roundF64 (r * n)⌋ + 1 = k + 1) ∧
    (⌊roundF64 (r * n)⌋ + 1 = k →
      ((k : ℚ) - 1 - 1 / 2 ^ 49) / n ≤ r ∧ r < (k : ℚ) / n) := by
  have hnq : (0 : ℚ) < n := by exact_mod_cast hn
  have hn32q : (n : ℚ) ≤ 32 := by exact_mod_cast hn32
  have hx0 : 0 ≤ r * n := mul_nonneg h0 hnq.le
  have hxn : r * n < 32 := by nlinarith
  have habs5 : |r * n| < 2 ^ ((4 : ℤ) + 1) := by rw [abs_of_nonneg hx0]; norm_num; exact hxn
  have habs53 : |r * n| < 2 ^ 53 := by rw [abs_of_nonneg hx0]; linarith
  have hiff : ⌊roundF64 (r * n)⌋ + 1 = k ↔
      (k : ℚ) - 1 ≤ roundF64 (r * n) ∧ roundF64 (r * n) < k := by
    rw [← eq_sub_iff_add_eq, Int.floor_eq_iff]
    push_cast
    constructor
    · rintro ⟨a, b⟩; exact ⟨a, by linarith⟩
    · rintro ⟨a, b⟩; exact ⟨a, by linarith⟩
  refine ⟨hiff, ?_, ?_⟩
  · intro hlo hhi
    have hlo' : ((k - 1 : ℤ) : ℚ) ≤ r * n := by
      push_cast; rwa [div_le_iff₀ hnq] at hlo
    have hhi' : r * n ≤ ((k : ℤ) : ℚ) := by
      rw [lt_div_iff₀ hnq] at hhi; exact hhi.le
    have a := le_roundF64_int (r * n) (k - 1) habs53 hlo'
    have b := roundF64_le_int (r * n) k habs53 hhi'
    have a' : k - 1 ≤ ⌊roundF64 (r * n)⌋ := Int.le_floor.mpr a
    have b' : ⌊roundF64 (r * n)⌋ ≤ k := by
      have := Int.floor_le (roundF64 (r * n))
      exact_mod_cast le_trans this b
    omega
  · intro hroll
    obtain ⟨a, b⟩ := hiff.mp hroll
    constructor
    · have he := ulpExp_le (r * n) 4 (by norm_num) habs5
      have hu : (2 : ℚ) ^ ulpExp (r * n) / 2 ≤ 1 / 2 ^ 49 := by
        have h1 : (2 : ℚ) ^ ulpExp (r * n) ≤ 2 ^ (-((48 : ℕ) : ℤ)) :=
          zpow_le_zpow_right₀ (by norm_num) (by push_cast; omega)
        rw [zpow_neg, zpow_natCast] at h1
        have h2 : ((2 : ℚ) ^ 48)⁻¹ = 2 * (1 / 2 ^ 49) := by norm_num
        rw [h2] at h1
        linarith
      have herr := abs_roundF64_sub_le (r * n)
      rw [abs_le] at herr
      rw [div_le_iff₀ hnq]
      linarith
    · by_contra hnot
      have hge : ((k : ℤ) : ℚ) ≤ r * n := by
        have := not_lt.mp hnot
        rwa [div_le_iff₀ hnq] at this
      have := le_roundF64_int (r * n) k habs53 hge
      linarith



theorem isF64_of_div_two_pow (M : ℤ) (s : ℕ) (hM : |M| < 2 ^ 53) (hs : s ≤ 1074) :
    isF64 ((M : ℚ) / 2 ^ s) := by
  refine ⟨roundF64_div_two_pow M s hM hs, ?_⟩
  have h1 : |(M : ℚ) / 2 ^ s| ≤ |(M : ℚ)| := by
    rw [abs_div, abs_of_pos (by positivity : (0 : ℚ) < 2 ^ s)]
    exact div_le_self (abs_nonneg _) (one_le_pow₀ (by norm_num))
  have h2 : |(M : ℚ)| < 2 ^ 53 := by exact_mod_cast hM
  have h3 : (2 : ℚ) ^ 53 ≤ 2 ^ 1024 := pow_le_pow_right₀ (by norm_num) (by norm_num)
  linarith

theorem isF64_half : isF64 (1 / 2) := by
  have h := isF64_of_div_two_pow 1 1 (by norm_num) (by norm_num)
  norm_num at h
  exact h

theorem isF64_double07 : isF64 double07 := by
  have h := isF64_of_div_two_pow 3152519739159347 52 (by norm_num) (by norm_num)
  norm_num at h
  simpa [double07] using h

theorem isF64_double03 : isF64 double03 := by
  have h := isF64_of_div_two_pow 5404319552844595 54 (by norm_num) (by norm_num)
  norm_num at h
  simpa [double03] using h

theorem isF64_doubleBelowOne : isF64 doubleBelowOne := by
  have h := isF64_of_div_two_pow 9007199254740991 53 (by norm_num) (by norm_num)
  norm_num at h
  simpa [doubleBelowOne] using h

theorem rollD6_half : rollD6 (1 / 2) = 4 := by
  have h := roundF64_div_two_pow 3 0 (by norm_num) (by norm_num)
  norm_num at h
  have hx : (1 / 2 : ℚ) * 6 = 3 := by norm_num
  unfold rollD6
  rw [hx, h]
  norm_num

/-- At the double `0.7` the product with 20 lies halfway between two doubles and is
rounded to 14. -/
theorem rollD21_double07 : rollD21 double07 = 15 := by
  have h := roundF64_tie (double07 * 20) 3 7881299347898367 (by norm_num)
    (by norm_num [double07, abs_of_pos]) (by norm_num [double07, abs_of_pos])
    (by norm_num [double07])
  have hval : roundF64 (double07 * 20) = 14 := by
    rw [h]; norm_num
  unfold rollD21
  rw [hval]
  norm_num

/-- At the double `0.3` the product with 20 is rounded to 6. -/
theorem rollD21_double03 : rollD21 double03 = 7 := by
  have h := roundF64_near (double03 * 20) 2 6755399441055744 (by norm_num)
    (by norm_num [double03, abs_of_pos]) (by norm_num [double03, abs_of_pos])
    (by norm_num [double03, abs_lt])
  have hval : roundF64 (double03 * 20) = 6 := by
    rw [h]; norm_num
  unfold rollD21
  rw [hval]
  norm_num

/-- A sample `j / 2 ^ s` with few bits is a double of `[0, 1)` whose product with a small
whole number is exact. -/
theorem roundF64_dyadic_sample (j n : ℤ) (s : ℕ) (hj0 : 0 ≤ j) (hj : j < 2 ^ s)
    (hs : s ≤ 10) (hn0 : 0 < n) (hn : n ≤ 32) :
    isF64 ((j : ℚ) / 2 ^ s) ∧ 0 ≤ (j : ℚ) / 2 ^ s ∧ (j : ℚ) / 2 ^ s < 1 ∧
      roundF64 ((j : ℚ) / 2 ^ s * n) = ((j * n : ℤ) : ℚ) / 2 ^ s := by
  have hpow : (2 : ℤ) ^ s ≤ 2 ^ 10 := pow_le_pow_right₀ (by norm_num) hs
  have hj53 : |j| < 2 ^ 53 := by rw [abs_of_nonneg hj0]; omega
  have hjn : |j * n| < 2 ^ 53 := by
    rw [abs_of_nonneg (mul_nonneg hj0 hn0.le)]
    have : j * n ≤ 2 ^ 10 * 32 := mul_le_mul (by omega) hn hn0.le (by norm_num)
    omega
  have hjq0 : (0 : ℚ) ≤ j := by exact_mod_cast hj0
  have hjq : (j : ℚ) < 2 ^ s := by exact_mod_cast hj
  refine ⟨isF64_of_div_two_pow j s hj53 (by omega), div_nonneg hjq0 (by positivity),
    (div_lt_one (by positivity)).mpr hjq, ?_⟩
  have hx : (j : ℚ) / 2 ^ s * n = ((j * n : ℤ) : ℚ) / 2 ^ s := by push_cast; ring
  rw [hx]
  exact roundF64_div_two_pow (j * n) s hjn (by omega)

theorem rollD21_attained (k : ℤ) (hk1 : 1 ≤ k) (hk : k ≤ 20) :
    ∃ r : ℚ, isF64 r ∧ 0 ≤ r ∧ r < 1 ∧ rollD21 r = k := by
  have hj : 8 * (k - 1) ≤ 5 * ((8 * (k - 1) + 4) / 5) ∧ 5 * ((8 * (k - 1) + 4) / 5) < 8 * k ∧
      0 ≤ (8 * (k - 1) + 4) / 5 ∧ (8 * (k - 1) + 4) / 5 < 32 := by omega
  obtain ⟨h1, h2, h3, h4⟩ := hj
  set j := (8 * (k - 1) + 4) / 5 with hjdef
  obtain ⟨a, b, c, d⟩ := roundF64_dyadic_sample j 20 5 h3 (by norm_num; exact h4)
    (by norm_num) (by norm_num) (by norm_num)
  refine ⟨_, a, b, c, ?_⟩
  unfold rollD21
  push_cast at d ⊢
  rw [d, ← eq_sub_iff_add_eq, Int.floor_eq_iff]
  have h1q : ((8 * (k - 1) : ℤ) : ℚ) ≤ ((5 * j : ℤ) : ℚ) := by exact_mod_cast h1
  have h2q : ((5 * j : ℤ) : ℚ) < ((8 * k : ℤ) : ℚ) := by exact_mod_cast h2
  push_cast at h1q h2q ⊢
  constructor
  · rw [le_div_iff₀ (by positivity)]; linarith
  · rw [div_lt_iff₀ (by positivity)]; linarith

theorem rollD6_attained (k : ℤ) (hk1 : 1 ≤ k) (hk : k ≤ 6) :
    ∃ r : ℚ, isF64 r ∧ 0 ≤ r ∧ r < 1 ∧ rollD6 r = k := by
  have hj : 4 * (k - 1) ≤ 3 * ((4 * (k - 1) + 2) / 3) ∧ 3 * ((4 * (k - 1) + 2) / 3) < 4 * k ∧
      0 ≤ (4 * (k - 1) + 2) / 3 ∧ (4 * (k - 1) + 2) / 3 < 8 := by omega
  obtain ⟨h1, h2, h3, h4⟩ := hj
  set j := (4 * (k - 1) + 2) / 3 with hjdef
  obtain ⟨a, b, c, d⟩ := roundF64_dyadic_sample j 6 3 h3 (by norm_num; exact h4)
    (by norm_num) (by norm_num) (by norm_num)
  refine ⟨_, a, b, c, ?_⟩
  unfold rollD6
  push_cast at d ⊢
  rw [d, ← eq_sub_iff_add_eq, Int.floor_eq_iff]
  have h1q : ((4 * (k - 1) : ℤ) : ℚ) ≤ ((3 * j : ℤ) : ℚ) := by exact_mod_cast h1
  have h2q : ((3 * j : ℤ) : ℚ) < ((4 * k : ℤ) : ℚ) := by exact_mod_cast h2
  push_cast at h1q h2q ⊢
  constructor
  · rw [le_div_iff₀ (by positivity)]; linarith
  · rw [div_lt_iff₀ (by positivity)]; linarith

theorem rollD4_attained (k : ℤ) (hk1 : 1 ≤ k) (hk : k ≤ 4) :
    ∃ r : ℚ, isF64 r ∧ 0 ≤ r ∧ r < 1 ∧ rollD4 r = k := by
  obtain ⟨a, b, c, d⟩ := roundF64_dyadic_sample (k - 1) 4 2 (by omega) (by norm_num; omega)
    (by norm_num) (by norm_num) (by norm_num)
  refine ⟨_, a, b, c, ?_⟩
  rw [rollD4_eq_iff _ k a]
  push_cast
  constructor
  · norm_num
  · exact div_lt_div_of_pos_right (by linarith) (by norm_num)

theorem rollD21_doubleBelowOne : rollD21 doubleBelowOne = 20 := by
  have h := roundF64_near (doubleBelowOne * 20) 4 5629499534213119 (by norm_num)
    (by norm_num [doubleBelowOne, abs_of_pos]) (by norm_num [doubleBelowOne, abs_of_pos])
    (by norm_num [doubleBelowOne, abs_lt])
  unfold rollD21
  rw [h, ← eq_sub_iff_add_eq, Int.floor_eq_iff]
  norm_num

/-- The interval of a face `1 ≤ k ≤ n` lies inside `[0, 1)`. -/
theorem face_interval_subset (n k : ℤ) (hn : 0 < n) (hk1 : 1 ≤ k) (hkn : k ≤ n) :
    ∀ r : ℚ, ((k : ℚ) - 1) / n ≤ r → r < (k : ℚ) / n → 0 ≤ r ∧ r < 1 := by
  intro r hlo hhi
  have hnq : (0 : ℚ) < (n : ℚ) := by exact_mod_cast hn
  have hk1q : (1 : ℚ) ≤ (k : ℚ) := by exact_mod_cast hk1
  have hknq : (k : ℚ) ≤ (n : ℚ) := by exact_mod_cast hkn
  constructor
  · exact le_trans (div_nonneg (by linarith) hnq.le) hlo
  · exact lt_of_lt_of_le hhi ((div_le_one hnq).mpr hknq)

/-- A press of `DICE_BUTTON_ID` runs the branch of lines 160-214. -/
theorem handler_dice (env : Env) (w : World) (b : RequestBody) (d : InteractionData)
    (hty : b.type = InteractionType.MESSAGE_COMPONENT) (hd : b.data = some d)
    (hid : d.custom_id = some DICE_BUTTON_ID) :
    handler env w b = buttonPress diceBranch env w b := by
  simp [handler, hty, hd, hid, InteractionType.MESSAGE_COMPONENT, InteractionType.PING,
    InteractionType.APPLICATION_COMMAND]

/-- A press of `D6_BUTTON_ID` runs the branch of lines 216-270. -/
theorem handler_d6 (env : Env) (w : World) (b : RequestBody) (d : InteractionData)
    (hty : b.type = InteractionType.MESSAGE_COMPONENT) (hd : b.data = some d)
    (hid : d.custom_id = some D6_BUTTON_ID) :
    handler env w b = buttonPress d6Branch env w b := by
  simp [handler, hty, hd, hid, InteractionType.MESSAGE_COMPONENT, InteractionType.PING,
    InteractionType.APPLICATION_COMMAND, DICE_BUTTON_ID, D6_BUTTON_ID]

/-- A press of `D4_BUTTON_ID` runs the branch of lines 272-326. -/
theorem handler_d4 (env : Env) (w : World) (b : RequestBody) (d : InteractionData)
    (hty : b.type = InteractionType.MESSAGE_COMPONENT) (hd : b.data = some d)
    (hid : d.custom_id = some D4_BUTTON_ID) :
    handler env w b = buttonPress d4Branch env w b := by
  simp [handler, hty, hd, hid, InteractionType.MESSAGE_COMPONENT, InteractionType.PING,
    InteractionType.APPLICATION_COMMAND, DICE_BUTTON_ID, D6_BUTTON_ID, D4_BUTTON_ID]

/-- A press of a known button runs the branch listed for it in `buttonBranches`. -/
theorem handler_press (env : Env) (w : World) (b : RequestBody) (d : InteractionData)
    (id : String) (c : ButtonBranch)
    (hty : b.type = InteractionType.MESSAGE_COMPONENT) (hd : b.data = some d)
    (hid : d.custom_id = some id) (hc : (id, c) ∈ buttonBranches) :
    handler env w b = buttonPress c env w b := by
  simp only [buttonBranches, List.mem_cons, Prod.mk.injEq, List.mem_singleton,
    List.not_mem_nil, or_false] at hc
  rcases hc with ⟨rfl, rfl⟩ | ⟨rfl, rfl⟩ | ⟨rfl, rfl⟩
  · exact handler_dice env w b d hty hd hid
  · exact handler_d6 env w b d hty hd hid
  · exact handler_d4 env w b d hty hd hid

/-- The `try`/`catch` statement sends no HTTP response. -/
theorem followUp_no_send (c : ButtonBranch) (env : Env) (w : World) (token : Option String)
    (roll : ℤ) : (followUp c env w token roll).filter Effect.isSend = [] := by
  unfold followUp sendFollowUp catchLog
  split <;> split <;> (try split) <;> (try split) <;> simp [Effect.isSend]

/-- The `try`/`catch` statement makes at most one webhook request. -/
theorem followUp_posts_le_one (c : ButtonBranch) (env : Env) (w : World)
    (token : Option String) (roll : ℤ) :
    ((followUp c env w token roll).filter Effect.isWebhookPost).length ≤ 1 := by
  unfold followUp sendFollowUp catchLog
  split <;> split <;> (try split) <;> (try split) <;> simp [Effect.isWebhookPost]

/-- With the local asset present and readable, the one webhook request carries the bytes
read from it. -/
theorem followUps_local_asset (c : ButtonBranch) (env : Env) (w : World) (b : RequestBody)
    (buf : Bytes) (hex : w.existsSync (imagePath c (c.roll w.random)) = true)
    (hread : w.readFileSync (imagePath c (c.roll w.random)) = .ok buf) :
    followUps (buttonPress c env w b).trace =
        [(fileName (c.roll w.random), buf, (followUpPayload c (c.roll w.random)).stringify)] ∧
      placeholderRequests (buttonPress c env w b).trace = [] ∧
      checkedPaths (buttonPress c env w b).trace = [imagePath c (c.roll w.random)] := by
  simp only [buttonPress, followUp, hex, hread, sendFollowUp, catchLog, if_true]
  cases w.fetchPost (webhookUrl env b.token) <;>
    simp [followUps, placeholderRequests, checkedPaths]

/-- With the local asset absent, one placeholder request is made. -/
theorem placeholder_when_absent (c : ButtonBranch) (env : Env) (w : World) (b : RequestBody)
    (hex : w.existsSync (imagePath c (c.roll w.random)) = false) :
    placeholderRequests (buttonPress c env w b).trace =
        [placeholderUrl c (c.roll w.random)] ∧
      checkedPaths (buttonPress c env w b).trace = [imagePath c (c.roll w.random)] := by
  simp only [buttonPress, followUp, hex, sendFollowUp, catchLog]
  cases w.fetchGet (placeholderUrl c (c.roll w.random)) with
  | error err => simp [placeholderRequests, checkedPaths]
  | ok response =>
    rcases response with ⟨status, err | imageBuffer⟩
    · simp [placeholderRequests, checkedPaths]
    · cases w.fetchPost (webhookUrl env b.token) <;>
        simp [placeholderRequests, checkedPaths]

/-- A rejected placeholder request is logged once and no webhook request follows. -/
theorem logs_placeholder_error (c : ButtonBranch) (env : Env) (w : World) (b : RequestBody)
    (err : String) (hex : w.existsSync (imagePath c (c.roll w.random)) = false)
    (hget : w.fetchGet (placeholderUrl c (c.roll w.random)) = .error err) :
    logs (buttonPress c env w b).trace = [[c.errorLabel, err]] ∧
      followUps (buttonPress c env w b).trace = [] := by
  simp [buttonPress, followUp, hex, hget, catchLog, logs, followUps]

/-- When the webhook request is made, the log is decided by whether `fetch` rejects: a
rejection is logged once, an answer (of any status) is not. -/
theorem logs_after_webhook (c : ButtonBranch) (env : Env) (w : World) (b : RequestBody)
    (hpost : ((buttonPress c env w b).trace.filter Effect.isWebhookPost).length = 1) :
    (∀ err, w.fetchPost (webhookUrl env b.token) = .error err →
      logs (buttonPress c env w b).trace = [[c.errorLabel, err]]) ∧
    (∀ response, w.fetchPost (webhookUrl env b.token) = .ok response →
      logs (buttonPress c env w b).trace = []) := by
  revert hpost
  simp only [buttonPress, followUp, sendFollowUp, catchLog]
  split
  · cases w.readFileSync (imagePath c (c.roll w.random)) with
    | error e => simp [Effect.isWebhookPost]
    | ok buf =>
      cases hp : w.fetchPost (webhookUrl env b.token) <;> simp [logs]
  · cases w.fetchGet (placeholderUrl c (c.roll w.random)) with
    | error e => simp [Effect.isWebhookPost]
    | ok response =>
      rcases response with ⟨status, e | buf⟩
      · simp [Effect.isWebhookPost]
      · cases hp : w.fetchPost (webhookUrl env b.token) <;> simp [logs]

/-- With the local asset absent and the placeholder fetched, the one webhook request
carries the bytes of the placeholder. -/
theorem followUps_placeholder (c : ButtonBranch) (env : Env) (w : World) (b : RequestBody)
    (status : Nat) (buf : Bytes)
    (hex : w.existsSync (imagePath c (c.roll w.random)) = false)
    (hget : w.fetchGet (placeholderUrl c (c.roll w.random)) =
      .ok { status := status, arrayBuffer := .ok buf }) :
    followUps (buttonPress c env w b).trace =
      [(fileName (c.roll w.random), buf, (followUpPayload c (c.roll w.random)).stringify)] := by
  simp only [buttonPress, followUp, hex, hget, sendFollowUp, catchLog]
  cases w.fetchPost (webhookUrl env b.token) <;> simp [followUps]

/-! ## Theorems -/

/-- C1: for a double sample `0 ≤ r < 1` each of `rollD21`, `rollD6`, `rollD4`, which round
the product `r * faces` to a double before taking the floor, returns an integer between 1
and its face count (20, 6, 4); `rollD21` returns neither 0 nor 21. -/
theorem roll_in_range (r : ℚ) (hr : isF64 r) (h0 : 0 ≤ r) (h1 : r < 1) :
    (1 ≤ rollD21 r ∧ rollD21 r ≤ 20) ∧ (1 ≤ rollD6 r ∧ rollD6 r ≤ 6) ∧
      (1 ≤ rollD4 r ∧ rollD4 r ≤ 4) ∧ rollD21 r ≠ 0 ∧ rollD21 r ≠ 21 := by
  have h20 := rollD21_bounds r hr h0 h1
  refine ⟨h20, rollD6_bounds r hr h0 h1, rollD4_bounds r hr h0 h1, ?_, ?_⟩ <;> omega

theorem roll_in_range_witness :
    (1 ≤ rollD21 doubleBelowOne ∧ rollD21 doubleBelowOne ≤ 20) ∧
      (1 ≤ rollD6 doubleBelowOne ∧ rollD6 doubleBelowOne ≤ 6) ∧
      (1 ≤ rollD4 doubleBelowOne ∧ rollD4 doubleBelowOne ≤ 4) ∧
      rollD21 doubleBelowOne ≠ 0 ∧ rollD21 doubleBelowOne ≠ 21 :=
  roll_in_range doubleBelowOne isF64_doubleBelowOne (by norm_num [doubleBelowOne])
    (by norm_num [doubleBelowOne])

/-- C9 (as the claim states it, refuted): the double `0.7` is a sample of `[0, 1)` that lies
in `[13 / 20, 14 / 20)`, the interval the claim gives to face 14, and `rollD21` returns 15
for it, because the product `0.7 * 20` is rounded up to 14. -/
theorem roll_uniform_counterexample :
    isF64 double07 ∧ 0 ≤ double07 ∧ double07 < 1 ∧
      ((14 : ℚ) - 1) / 20 ≤ double07 ∧ double07 < (14 : ℚ) / 20 ∧ rollD21 double07 = 15 ∧
      ¬ (rollD21 double07 = 14 ↔ ((14 : ℚ) - 1) / 20 ≤ double07 ∧ double07 < (14 : ℚ) / 20) := by
  refine ⟨isF64_double07, by norm_num [double07], by norm_num [double07],
    by norm_num [double07], by norm_num [double07], rollD21_double07, ?_⟩
  rw [rollD21_double07]
  norm_num [double07]

/-- C9 (amended): for each die with `n` faces (20, 6, 4), every face `1 ≤ k ≤ n` and every
double sample `0 ≤ r < 1`, with the product `r * n` rounded to a double: the roll is `k`
exactly when `k - 1 ≤ roundF64 (r * n) < k`; a sample with `(k - 1) / n ≤ r < k / n` rolls
`k` or `k + 1`; a sample that rolls `k` has `(k - 1 - 2 ^ (-49)) / n ≤ r < k / n`; and the
face is attained by a sample. For the 4-sided die the product is exact: the roll is `k`
exactly when `(k - 1) / 4 ≤ r < k / 4`, an interval of length `1 / 4` inside `[0, 1)`. -/
theorem roll_rounded_uniform (k : ℤ) (hk : 1 ≤ k) :
    (k ≤ 20 →
      (∀ r : ℚ, isF64 r → 0 ≤ r → r < 1 →
        (rollD21 r = k ↔ (k : ℚ) - 1 ≤ roundF64 (r * 20) ∧ roundF64 (r * 20) < k) ∧
        (((k : ℚ) - 1) / 20 ≤ r → r < (k : ℚ) / 20 → rollD21 r = k ∨ rollD21 r = k + 1) ∧
        (rollD21 r = k → ((k : ℚ) - 1 - 1 / 2 ^ 49) / 20 ≤ r ∧ r < (k : ℚ) / 20)) ∧
      (∃ r : ℚ, isF64 r ∧ 0 ≤ r ∧ r < 1 ∧ rollD21 r = k)) ∧
    (k ≤ 6 →
      (∀ r : ℚ, isF64 r → 0 ≤ r → r < 1 →
        (rollD6 r = k ↔ (k : ℚ) - 1 ≤ roundF64 (r * 6) ∧ roundF64 (r * 6) < k) ∧
        (((k : ℚ) - 1) / 6 ≤ r → r < (k : ℚ) / 6 → rollD6 r = k ∨ rollD6 r = k + 1) ∧
        (rollD6 r = k → ((k : ℚ) - 1 - 1 / 2 ^ 49) / 6 ≤ r ∧ r < (k : ℚ) / 6)) ∧
      (∃ r : ℚ, isF64 r ∧ 0 ≤ r ∧ r < 1 ∧ rollD6 r = k)) ∧
    (k ≤ 4 →
      (∀ r : ℚ, isF64 r → 0 ≤ r → r < 1 →
        (rollD4 r = k ↔ ((k : ℚ) - 1) / 4 ≤ r ∧ r < (k : ℚ) / 4)) ∧
      (∀ r : ℚ, ((k : ℚ) - 1) / 4 ≤ r → r < (k : ℚ) / 4 → 0 ≤ r ∧ r < 1) ∧
      (∃ r : ℚ, isF64 r ∧ 0 ≤ r ∧ r < 1 ∧ rollD4 r = k) ∧
      (k : ℚ) / 4 - ((k : ℚ) - 1) / 4 = 1 / 4) := by
  refine ⟨fun hkn => ⟨fun r _ h0 h1 => ?_, rollD21_attained k hk hkn⟩,
    fun hkn => ⟨fun r _ h0 h1 => ?_, rollD6_attained k hk hkn⟩,
    fun hkn => ⟨fun r hr _ _ => rollD4_eq_iff r k hr, ?_, rollD4_attained k hk hkn,
      by ring⟩⟩
  · have h := rounded_roll_interval r 20 k (by norm_num) (by norm_num) h0 h1
    push_cast at h
    exact h
  · have h := rounded_roll_interval r 6 k (by norm_num) (by norm_num) h0 h1
    push_cast at h
    exact h
  · have h := face_interval_subset 4 k (by norm_num) hk hkn
    push_cast at h
    exact h

theorem roll_rounded_uniform_witness :
    (1 : ℤ) ≤ 3 ∧ (rollD4 (1 / 2) = 3 ↔ (((3 : ℤ) : ℚ) - 1) / 4 ≤ 1 / 2 ∧
      (1 / 2 : ℚ) < ((3 : ℤ) : ℚ) / 4) ∧
      (∃ r : ℚ, isF64 r ∧ 0 ≤ r ∧ r < 1 ∧ rollD21 r = 3) :=
  ⟨by norm_num,
    ((roll_rounded_uniform 3 (by norm_num)).2.2 (by norm_num)).1 (1 / 2) isF64_half
      (by norm_num) (by norm_num),
    ((roll_rounded_uniform 3 (by norm_num)).1 (by norm_num)).2⟩

/-- C8: a handshake request (type `PING`), whatever its `id`, `data` and `token` are, gets
the response `{ type: PONG }` with status 200 and causes nothing else: the trace holds this
one response and the handler returns. -/
theorem ping_only_pong (env : Env) (w : World) (b : RequestBody)
    (hty : b.type = InteractionType.PING) :
    handler env w b =
      { trace := [.send 200 (Json.mkObj [("type", .num InteractionResponseType.PONG)])],
        outcome := .returned } := by
  simp [handler, hty]

theorem ping_only_pong_witness :
    handler sampleEnv (worldWithoutAssets (1 / 2))
        { id := none, type := InteractionType.PING, data := none, token := none } =
      { trace := [.send 200 (Json.mkObj [("type", .num InteractionResponseType.PONG)])],
        outcome := .returned } :=
  ping_only_pong _ _ _ rfl

/-- C4: a slash command whose name is none of `test`, `d20`, `d6`, `d4`, and a component
press whose `custom_id` is none of the three button identifiers, each make the handler log
one error with `console.error` and send one response with status 400 and a JSON error
body; the trace holds nothing else (no deferred acknowledgment, no roll, no asset lookup,
no outbound request), and the handler returns. -/
theorem unknown_request_rejected (env : Env) (w : World) (b : RequestBody)
    (d : InteractionData) (hd : b.data = some d) :
    (b.type = InteractionType.APPLICATION_COMMAND →
      d.name ≠ some "test" → d.name ≠ some "d20" → d.name ≠ some "d6" →
      d.name ≠ some "d4" →
      handler env w b =
        { trace := [.consoleError ["unknown command: " ++ interpolate d.name],
            .send 400 (Json.mkObj [("error", .str "unknown command")])],
          outcome := .returned }) ∧
    (b.type = InteractionType.MESSAGE_COMPONENT →
      d.custom_id ≠ some DICE_BUTTON_ID → d.custom_id ≠ some D6_BUTTON_ID →
      d.custom_id ≠ some D4_BUTTON_ID →
      handler env w b =
        { trace := [.consoleError ["unknown interaction type", "3"],
            .send 400 (Json.mkObj [("error", .str "unknown interaction type")])],
          outcome := .returned }) := by
  constructor
  · intro hty h1 h2 h3 h4
    simp [handler, hty, hd, h1, h2, h3, h4, InteractionType.PING,
      InteractionType.APPLICATION_COMMAND]
  · intro hty h1 h2 h3
    simp [handler, hty, hd, h1, h2, h3, unknownInteraction, InteractionType.PING,
      InteractionType.APPLICATION_COMMAND, InteractionType.MESSAGE_COMPONENT]
    rfl

theorem unknown_request_rejected_witness :
    handler sampleEnv (worldWithAssets (1 / 2)) (commandOf "d8") =
        { trace := [.consoleError ["unknown command: d8"],
            .send 400 (Json.mkObj [("error", .str "unknown command")])],
          outcome := .returned } ∧
      handler sampleEnv (worldWithAssets (1 / 2)) (pressOf "d8_roll_button") =
        { trace := [.consoleError ["unknown interaction type", "3"],
            .send 400 (Json.mkObj [("error", .str "unknown interaction type")])],
          outcome := .returned } :=
  ⟨(unknown_request_rejected sampleEnv (worldWithAssets (1 / 2)) (commandOf "d8")
      { name := some "d8", custom_id := none } rfl).1 rfl (by decide) (by decide) (by decide)
      (by decide),
    (unknown_request_rejected sampleEnv (worldWithAssets (1 / 2)) (pressOf "d8_roll_button")
      { name := none, custom_id := some "d8_roll_button" } rfl).2 rfl (by decide) (by decide)
      (by decide)⟩

/-- C3: for a press of one of the three known buttons the trace of the handler is
`Math.random()`, then the deferred acknowledgment (status 200, type
`DEFERRED_CHANNEL_MESSAGE_WITH_SOURCE`), then the rest, which starts with the filesystem
existence check: nothing before the acknowledgment is an existence check, a file read, a
placeholder request or a webhook request. -/
theorem deferred_ack_before_asset_work (env : Env) (w : World) (b : RequestBody)
    (d : InteractionData) (hty : b.type = InteractionType.MESSAGE_COMPONENT)
    (hd : b.data = some d)
    (hid : d.custom_id = some DICE_BUTTON_ID ∨ d.custom_id = some D6_BUTTON_ID ∨
      d.custom_id = some D4_BUTTON_ID) :
    ∃ pre path rest,
      (handler env w b).trace =
        pre ++ Effect.send 200 (Json.mkObj
          [("type", .num InteractionResponseType.DEFERRED_CHANNEL_MESSAGE_WITH_SOURCE)]) ::
          Effect.existsSync path :: rest ∧
      ∀ e ∈ pre, e.isAssetWork = false := by
  have key : ∀ c : ButtonBranch, ∃ pre path rest,
      (buttonPress c env w b).trace =
        pre ++ Effect.send 200 (Json.mkObj
          [("type", .num InteractionResponseType.DEFERRED_CHANNEL_MESSAGE_WITH_SOURCE)]) ::
          Effect.existsSync path :: rest ∧
      ∀ e ∈ pre, e.isAssetWork = false := by
    intro c
    refine ⟨[.mathRandom], imagePath c (c.roll w.random),
      (followUp c env w b.token (c.roll w.random)).tail, ?_, by simp [Effect.isAssetWork]⟩
    by_cases hex : w.existsSync (imagePath c (c.roll w.random)) = true <;>
      simp [buttonPress, followUp, hex, deferredResponse]
  rcases hid with hid | hid | hid
  · rw [handler_dice env w b d hty hd hid]; exact key _
  · rw [handler_d6 env w b d hty hd hid]; exact key _
  · rw [handler_d4 env w b d hty hd hid]; exact key _

theorem deferred_ack_before_asset_work_witness :
    ∃ pre path rest,
      (handler sampleEnv (worldWithoutAssets (1 / 2)) (pressOf D4_BUTTON_ID)).trace =
        pre ++ Effect.send 200 (Json.mkObj
          [("type", .num InteractionResponseType.DEFERRED_CHANNEL_MESSAGE_WITH_SOURCE)]) ::
          Effect.existsSync path :: rest ∧
      ∀ e ∈ pre, e.isAssetWork = false :=
  deferred_ack_before_asset_work sampleEnv (worldWithoutAssets (1 / 2)) (pressOf D4_BUTTON_ID)
    { name := none, custom_id := some D4_BUTTON_ID } rfl rfl (Or.inr (Or.inr rfl))

/-- C10: a request whose `data` field is present gets exactly one HTTP response,
whatever its type, command name or `custom_id` and whatever the world answers; for a
press of a known button that one response is the deferred acknowledgment. -/
theorem exactly_one_response (env : Env) (w : World) (b : RequestBody)
    (d : InteractionData) (hd : b.data = some d) :
    ((handler env w b).trace.filter Effect.isSend).length = 1 ∧
      (b.type = InteractionType.MESSAGE_COMPONENT →
        (d.custom_id = some DICE_BUTTON_ID ∨ d.custom_id = some D6_BUTTON_ID ∨
          d.custom_id = some D4_BUTTON_ID) →
        (handler env w b).trace.filter Effect.isSend = [.send 200 deferredResponse]) := by
  have key : ∀ c : ButtonBranch,
      (buttonPress c env w b).trace.filter Effect.isSend = [.send 200 deferredResponse] := by
    intro c
    simp [buttonPress, List.filter_cons, Effect.isSend, followUp_no_send]
  constructor
  · unfold handler
    rw [hd]
    simp only []
    split_ifs <;> simp [Effect.isSend, key, unknownInteraction]
  · intro hty hid
    rcases hid with hid | hid | hid
    · rw [handler_dice env w b d hty hd hid]; exact key _
    · rw [handler_d6 env w b d hty hd hid]; exact key _
    · rw [handler_d4 env w b d hty hd hid]; exact key _

theorem exactly_one_response_witness :
    ((handler sampleEnv (worldWithAssets (1 / 2)) (pressOf D6_BUTTON_ID)).trace.filter
        Effect.isSend).length = 1 ∧
      (handler sampleEnv (worldWithAssets (1 / 2)) (pressOf D6_BUTTON_ID)).trace.filter
        Effect.isSend = [.send 200 deferredResponse] :=
  ⟨(exactly_one_response sampleEnv (worldWithAssets (1 / 2)) (pressOf D6_BUTTON_ID)
      { name := none, custom_id := some D6_BUTTON_ID } rfl).1,
    (exactly_one_response sampleEnv (worldWithAssets (1 / 2)) (pressOf D6_BUTTON_ID)
      { name := none, custom_id := some D6_BUTTON_ID } rfl).2 rfl (Or.inr (Or.inl rfl))⟩

/-- C2 (as the claim states it, refuted): with `Math.random()` equal to `1 / 2` the roll of
a press of `d6_roll_button` is 4 and the local asset is used; the `payload_json` part sent
ends in `"color":3718648`, so it is not the text of the claim, which has `3709656`,
whether the caption opens with the emoji of the claim or with the literal of the source. -/
theorem d6_payload_color_counterexample :
    followUps (handler sampleEnv (worldWithAssets (1 / 2)) (pressOf D6_BUTTON_ID)).trace =
        [("4.jpg", [255, 216, 255],
          "\x7b\"content\":\"" ++ diceEmoji ++ " Resultado: **4**\",\"embeds\":[\x7b\"title\":\"D6: 4\",\"image\":\x7b\"url\":\"attachment://4.jpg\"\x7d,\"color\":3718648\x7d]\x7d")] ∧
      followUps (handler sampleEnv (worldWithAssets (1 / 2)) (pressOf D6_BUTTON_ID)).trace ≠
        [("4.jpg", [255, 216, 255],
          "\x7b\"content\":\"🎲 Resultado: **4**\",\"embeds\":[\x7b\"title\":\"D6: 4\",\"image\":\x7b\"url\":\"attachment://4.jpg\"\x7d,\"color\":3709656\x7d]\x7d")] ∧
      followUps (handler sampleEnv (worldWithAssets (1 / 2)) (pressOf D6_BUTTON_ID)).trace ≠
        [("4.jpg", [255, 216, 255],
          "\x7b\"content\":\"" ++ diceEmoji ++ " Resultado: **4**\",\"embeds\":[\x7b\"title\":\"D6: 4\",\"image\":\x7b\"url\":\"attachment://4.jpg\"\x7d,\"color\":3709656\x7d]\x7d")] := by
  have hroll : d6Branch.roll (worldWithAssets (1 / 2)).random = 4 := rollD6_half
  have h := (followUps_local_asset d6Branch sampleEnv (worldWithAssets (1 / 2))
    (pressOf D6_BUTTON_ID) [255, 216, 255] rfl rfl).1
  rw [hroll] at h
  rw [handler_d6 sampleEnv (worldWithAssets (1 / 2)) (pressOf D6_BUTTON_ID)
    { name := none, custom_id := some D6_BUTTON_ID } rfl rfl rfl, h]
  decide

/-- C2 (amended): for a press of `d6_roll_button` with a double sample `0 ≤ r < 1`, the local asset
`./assets/d6/v.jpg` present and readable, where `v` is the roll: `v` is between 1 and 6, one
webhook request is made, its file part is named `v.jpg` and holds the bytes read, and its
`payload_json` part is the text
`{"content":"<emoji> Resultado: **v**","embeds":[{"title":"D6: v","image":{"url":"attachment://v.jpg"},"color":3718648}]}`
with `<emoji>` the literal of the source. -/
theorem d6_follow_up_payload (env : Env) (w : World) (b : RequestBody) (d : InteractionData)
    (buf : Bytes) (hr : isF64 w.random) (h0 : 0 ≤ w.random) (h1 : w.random < 1)
    (hty : b.type = InteractionType.MESSAGE_COMPONENT) (hd : b.data = some d)
    (hid : d.custom_id = some "d6_roll_button")
    (hex : w.existsSync ("./assets/d6/" ++ toString (rollD6 w.random) ++ ".jpg") = true)
    (hread : w.readFileSync ("./assets/d6/" ++ toString (rollD6 w.random) ++ ".jpg") =
      .ok buf) :
    1 ≤ rollD6 w.random ∧ rollD6 w.random ≤ 6 ∧
      followUps (handler env w b).trace =
        [(toString (rollD6 w.random) ++ ".jpg", buf,
          "\x7b\"content\":\"" ++ diceEmoji ++ " Resultado: **" ++ toString (rollD6 w.random) ++
            "**\",\"embeds\":[\x7b\"title\":\"D6: " ++ toString (rollD6 w.random) ++
            "\",\"image\":\x7b\"url\":\"attachment://" ++ toString (rollD6 w.random) ++
            ".jpg\"\x7d,\"color\":3718648\x7d]\x7d")] := by
  obtain ⟨hlo, hhi⟩ := rollD6_bounds w.random hr h0 h1
  refine ⟨hlo, hhi, ?_⟩
  rw [handler_d6 env w b d hty hd hid,
    (followUps_local_asset d6Branch env w b buf hex hread).1]
  have hv : ∀ v : ℤ, 1 ≤ v → v ≤ 6 →
      (followUpPayload d6Branch v).stringify =
        "\x7b\"content\":\"" ++ diceEmoji ++ " Resultado: **" ++ toString v ++
          "**\",\"embeds\":[\x7b\"title\":\"D6: " ++ toString v ++
          "\",\"image\":\x7b\"url\":\"attachment://" ++ toString v ++
          ".jpg\"\x7d,\"color\":3718648\x7d]\x7d" := by
    intro v hv1 hv6
    interval_cases v <;> decide
  have hr : d6Branch.roll w.random = rollD6 w.random := rfl
  rw [hr, hv _ hlo hhi]
  rfl

theorem d6_follow_up_payload_witness :
    1 ≤ rollD6 (worldWithAssets (1 / 2)).random ∧
      rollD6 (worldWithAssets (1 / 2)).random ≤ 6 ∧
      followUps (handler sampleEnv (worldWithAssets (1 / 2)) (pressOf D6_BUTTON_ID)).trace =
        [(toString (rollD6 (worldWithAssets (1 / 2)).random) ++ ".jpg", [255, 216, 255],
          "\x7b\"content\":\"" ++ diceEmoji ++ " Resultado: **" ++
            toString (rollD6 (worldWithAssets (1 / 2)).random) ++
            "**\",\"embeds\":[\x7b\"title\":\"D6: " ++
            toString (rollD6 (worldWithAssets (1 / 2)).random) ++
            "\",\"image\":\x7b\"url\":\"attachment://" ++
            toString (rollD6 (worldWithAssets (1 / 2)).random) ++
            ".jpg\"\x7d,\"color\":3718648\x7d]\x7d")] :=
  d6_follow_up_payload sampleEnv (worldWithAssets (1 / 2)) (pressOf D6_BUTTON_ID)
    { name := none, custom_id := some D6_BUTTON_ID } [255, 216, 255] isF64_half
    (by norm_num [worldWithAssets]) (by norm_num [worldWithAssets]) rfl rfl rfl rfl rfl

/-- C5 (the code at the failing input): a press of `dice_roll_button` with `Math.random()`
equal to the double `0.3` rolls 7; with `./assets/7.jpg` absent the placeholder requested is the one
labelled `D21`, while the embed title of the same follow-up says `D20: 7`. -/
theorem d20_placeholder_label_is_d21 :
    checkedPaths (handler sampleEnv (worldWithoutAssets double03)
        (pressOf DICE_BUTTON_ID)).trace = ["./assets/7.jpg"] ∧
      placeholderRequests (handler sampleEnv (worldWithoutAssets double03)
        (pressOf DICE_BUTTON_ID)).trace =
        ["https://placehold.co/512x512/111827/38bdf8.png?text=D21%0A7&font=source-sans-pro"] ∧
      followUps (handler sampleEnv (worldWithoutAssets double03)
        (pressOf DICE_BUTTON_ID)).trace =
        [("7.jpg", [137, 80],
          "\x7b\"content\":\"" ++ diceEmoji ++ " Resultado: **7**\",\"embeds\":[\x7b\"title\":\"D20: 7\",\"image\":\x7b\"url\":\"attachment://7.jpg\"\x7d,\"color\":3718648\x7d]\x7d")] := by
  have hroll : diceBranch.roll (worldWithoutAssets double03).random = 7 :=
    rollD21_double03
  have h1 := placeholder_when_absent diceBranch sampleEnv (worldWithoutAssets double03)
    (pressOf DICE_BUTTON_ID) rfl
  have h2 := followUps_placeholder diceBranch sampleEnv (worldWithoutAssets double03)
    (pressOf DICE_BUTTON_ID) 200 [137, 80] rfl rfl
  rw [hroll] at h1 h2
  rw [handler_dice sampleEnv (worldWithoutAssets double03) (pressOf DICE_BUTTON_ID)
    { name := none, custom_id := some DICE_BUTTON_ID } rfl rfl rfl, h1.1, h1.2, h2]
  decide

/-- C6 (as the claim states it, refuted): the webhook answers a press of `d6_roll_button`
with status 500; the one webhook request is made and nothing is logged. -/
theorem webhook_500_not_logged_counterexample :
    (worldWebhook500 (1 / 2)).fetchPost (webhookUrl sampleEnv (pressOf D6_BUTTON_ID).token) =
        .ok { status := 500, arrayBuffer := .ok [] } ∧
      ((handler sampleEnv (worldWebhook500 (1 / 2)) (pressOf D6_BUTTON_ID)).trace.filter
        Effect.isWebhookPost).length = 1 ∧
      logs (handler sampleEnv (worldWebhook500 (1 / 2)) (pressOf D6_BUTTON_ID)).trace = [] := by
  rw [handler_d6 sampleEnv (worldWebhook500 (1 / 2)) (pressOf D6_BUTTON_ID)
    { name := none, custom_id := some D6_BUTTON_ID } rfl rfl rfl]
  have hpost : ((buttonPress d6Branch sampleEnv (worldWebhook500 (1 / 2))
      (pressOf D6_BUTTON_ID)).trace.filter Effect.isWebhookPost).length = 1 := by
    simp [buttonPress, followUp, sendFollowUp, worldWebhook500, worldWithAssets,
      Effect.isWebhookPost]
  exact ⟨rfl, hpost, (logs_after_webhook d6Branch sampleEnv (worldWebhook500 (1 / 2))
    (pressOf D6_BUTTON_ID) hpost).2 _ rfl⟩

/-- C6 (amended): for a press of a known button, with `c` its branch and `v` its roll:
the handler returns normally, makes at most one webhook request, and sends no HTTP response
after the deferred acknowledgment; when the placeholder request raises, or the webhook
request is made and raises, the error is logged once with `console.error`; when the
webhook request is made and answered, whatever the status of the answer, nothing is
logged. -/
theorem follow_up_failure_swallowed (env : Env) (w : World) (b : RequestBody)
    (d : InteractionData) (id : String) (c : ButtonBranch)
    (hty : b.type = InteractionType.MESSAGE_COMPONENT) (hd : b.data = some d)
    (hid : d.custom_id = some id) (hc : (id, c) ∈ buttonBranches) :
    (handler env w b).outcome = .returned ∧
      ((handler env w b).trace.filter Effect.isWebhookPost).length ≤ 1 ∧
      (∃ rest, (handler env w b).trace =
          .mathRandom :: .send 200 deferredResponse :: rest ∧
        rest.filter Effect.isSend = []) ∧
      (∀ err, w.existsSync (imagePath c (c.roll w.random)) = false →
        w.fetchGet (placeholderUrl c (c.roll w.random)) = .error err →
        logs (handler env w b).trace = [[c.errorLabel, err]]) ∧
      (∀ err, ((handler env w b).trace.filter Effect.isWebhookPost).length = 1 →
        w.fetchPost (webhookUrl env b.token) = .error err →
        logs (handler env w b).trace = [[c.errorLabel, err]]) ∧
      (∀ response, ((handler env w b).trace.filter Effect.isWebhookPost).length = 1 →
        w.fetchPost (webhookUrl env b.token) = .ok response →
        logs (handler env w b).trace = []) := by
  rw [handler_press env w b d id c hty hd hid hc]
  refine ⟨rfl, ?_, ⟨_, rfl, followUp_no_send c env w b.token (c.roll w.random)⟩, ?_, ?_, ?_⟩
  · have := followUp_posts_le_one c env w b.token (c.roll w.random)
    simpa [buttonPress, List.filter_cons, Effect.isWebhookPost] using this
  · intro err hex hget
    exact (logs_placeholder_error c env w b err hex hget).1
  · intro err hpost herr
    exact (logs_after_webhook c env w b hpost).1 err herr
  · intro response hpost hok
    exact (logs_after_webhook c env w b hpost).2 response hok

theorem follow_up_failure_swallowed_witness :
    (handler sampleEnv (worldOffline (1 / 2)) (pressOf D6_BUTTON_ID)).outcome = .returned ∧
      ((handler sampleEnv (worldOffline (1 / 2)) (pressOf D6_BUTTON_ID)).trace.filter
        Effect.isWebhookPost).length ≤ 1 ∧
      logs (handler sampleEnv (worldOffline (1 / 2)) (pressOf D6_BUTTON_ID)).trace =
        [["Error sending d6 image:", "ECONNREFUSED"]] :=
  ⟨(follow_up_failure_swallowed sampleEnv (worldOffline (1 / 2)) (pressOf D6_BUTTON_ID)
      { name := none, custom_id := some D6_BUTTON_ID } D6_BUTTON_ID d6Branch rfl rfl rfl
      (by simp [buttonBranches])).1,
    (follow_up_failure_swallowed sampleEnv (worldOffline (1 / 2)) (pressOf D6_BUTTON_ID)
      { name := none, custom_id := some D6_BUTTON_ID } D6_BUTTON_ID d6Branch rfl rfl rfl
      (by simp [buttonBranches])).2.1,
    (follow_up_failure_swallowed sampleEnv (worldOffline (1 / 2)) (pressOf D6_BUTTON_ID)
      { name := none, custom_id := some D6_BUTTON_ID } D6_BUTTON_ID d6Branch rfl rfl rfl
      (by simp [buttonBranches])).2.2.2.1 "ECONNREFUSED" rfl rfl⟩

/-- C7: for each die command (`d20`, `d6`, `d4`) the handler answers with one response of
type `CHANNEL_MESSAGE_WITH_SOURCE` that holds one caption and exactly one button, whose
`custom_id` is `dice_roll_button`, `d6_roll_button`, `d4_roll_button` respectively; a press
carrying that identifier runs the branch of the same die, which rolls
`floor(r * faces) + 1` (the product rounded to a double) with 20, 6, 4 faces and titles its
embed `D20: v`, `D6: v`, `D4: v`; the three identifiers are pairwise distinct. -/
theorem die_command_button_dispatch (name caption id title : String) (faces : ℤ)
    (c : ButtonBranch)
    (h : (name, caption, id, faces, title, c) ∈
      [("d20", "Lanza un dado maldito de 20 caras.", "dice_roll_button", (20 : ℤ), "D20",
          diceBranch),
        ("d6", "Lanza un dado de 6 caras.", "d6_roll_button", 6, "D6", d6Branch),
        ("d4", "Lanza un dado de 4 caras.", "d4_roll_button", 4, "D4", d4Branch)]) :
    (∀ env w b d, b.type = InteractionType.APPLICATION_COMMAND → b.data = some d →
      d.name = some name →
      ∃ response, handler env w b =
          { trace := [.send 200 response], outcome := .returned } ∧
        response.get? "type" =
          some (.num InteractionResponseType.CHANNEL_MESSAGE_WITH_SOURCE) ∧
        response.textDisplays = [caption] ∧
        response.buttonIds = [some id]) ∧
      (∀ env w b d, b.type = InteractionType.MESSAGE_COMPONENT → b.data = some d →
        d.custom_id = some id → handler env w b = buttonPress c env w b) ∧
      (∀ r : ℚ, c.roll r = ⌊roundF64 (r * (faces : ℚ))⌋ + 1) ∧
      (∀ v : ℤ, embedTitles (followUpPayload c v) = [title ++ ": " ++ toString v]) ∧
      DICE_BUTTON_ID ≠ D6_BUTTON_ID ∧ DICE_BUTTON_ID ≠ D4_BUTTON_ID ∧
      D6_BUTTON_ID ≠ D4_BUTTON_ID := by
  simp only [List.mem_cons, Prod.mk.injEq, List.mem_singleton, List.not_mem_nil,
    or_false] at h
  rcases h with ⟨rfl, rfl, rfl, rfl, rfl, rfl⟩ | ⟨rfl, rfl, rfl, rfl, rfl, rfl⟩ |
    ⟨rfl, rfl, rfl, rfl, rfl, rfl⟩
  · refine ⟨?_, fun env w b d hty hd hid => handler_dice env w b d hty hd hid,
      fun r => by simp [diceBranch, rollD21], fun v => rfl, by decide, by decide, by decide⟩
    intro env w b d hty hd hname
    exact ⟨dieResponse "Lanza un dado maldito de 20 caras." DICE_BUTTON_ID,
      by simp [handler, hty, hd, hname, InteractionType.PING,
        InteractionType.APPLICATION_COMMAND], rfl, rfl, rfl⟩
  · refine ⟨?_, fun env w b d hty hd hid => handler_d6 env w b d hty hd hid,
      fun r => by simp [d6Branch, rollD6], fun v => rfl, by decide, by decide, by decide⟩
    intro env w b d hty hd hname
    exact ⟨dieResponse "Lanza un dado de 6 caras." D6_BUTTON_ID,
      by simp [handler, hty, hd, hname, InteractionType.PING,
        InteractionType.APPLICATION_COMMAND], rfl, rfl, rfl⟩
  · refine ⟨?_, fun env w b d hty hd hid => handler_d4 env w b d hty hd hid,
      fun r => by simp [d4Branch, rollD4], fun v => rfl, by decide, by decide, by decide⟩
    intro env w b d hty hd hname
    exact ⟨dieResponse "Lanza un dado de 4 caras." D4_BUTTON_ID,
      by simp [handler, hty, hd, hname, InteractionType.PING,
        InteractionType.APPLICATION_COMMAND], rfl, rfl, rfl⟩

theorem die_command_button_dispatch_witness :
    (∃ response, handler sampleEnv (worldWithAssets (1 / 2)) (commandOf "d6") =
          { trace := [.send 200 response], outcome := .returned } ∧
        response.get? "type" =
          some (.num InteractionResponseType.CHANNEL_MESSAGE_WITH_SOURCE) ∧
        response.textDisplays = ["Lanza un dado de 6 caras."] ∧
        response.buttonIds = [some "d6_roll_button"]) ∧
      handler sampleEnv (worldWithAssets (1 / 2)) (pressOf "d6_roll_button") =
        buttonPress d6Branch sampleEnv (worldWithAssets (1 / 2)) (pressOf "d6_roll_button") :=
  ⟨(die_command_button_dispatch "d6" "Lanza un dado de 6 caras." "d6_roll_button" "D6" 6
      d6Branch (by simp)).1 sampleEnv (worldWithAssets (1 / 2)) (commandOf "d6")
      { name := some "d6", custom_id := none } rfl rfl rfl,
    (die_command_button_dispatch "d6" "Lanza un dado de 6 caras." "d6_roll_button" "D6" 6
      d6Branch (by simp)).2.1 sampleEnv (worldWithAssets (1 / 2)) (pressOf "d6_roll_button")
      { name := none, custom_id := some "d6_roll_button" } rfl rfl rfl⟩

end DiceBot
